import Mathlib

/- Verification of the mosek Python binding layer
   (src/8/tools/platform/linux64x86/purepython/3/mosek/__init__.py).

   The definitions below are a shallow embedding of the binding's core
   infrastructure: the enum registry (EnumBase / Enum), the argument
   contract layer (accepts and the per-parameter converters), the buffer
   bridge used by array-taking operations, the callback trampolines
   (progress_proxy / stream_proxy and set_Progress / set_Stream), the
   Env/Task lifecycle (__del__ / __exit__) and the error translator
   (__getlasterror / getcodedesc and the per-operation status check).

   Native engine calls are modelled by explicit oracles (the integer
   status and output values a native entry point would produce), and
   every wrapped operation additionally returns the list of native entry
   points it actually invoked, in order, so that claims of the form
   "the native call is never attempted" are expressible.  Machine floats
   never influence control flow in the modelled code, so array elements
   are carried as integers (bit patterns are opaque payload). -/

/-- An enum member: `item = int.__new__(cls,v); item.__name__ = n`.
    An immutable pair of symbolic name and integer code. -/
structure EnumMember where
  name : String
  value : Int
deriving DecidableEq, Repr

/-- The Python exceptions raised by the binding layer. `mosekError` is
    `mosek.Error(res,msg)`, whose `errno` field stores the rescode enum
    member and whose message is `msg`. -/
inductive PyExc where
  | typeAcceptError (msg : String)
  | typeError (msg : String)
  | valueError (msg : String)
  | indexError (msg : String)
  | keyError
  | mosekError (errno : EnumMember) (msg : String)
deriving DecidableEq, Repr

/-- The Python values that flow through the argument contract layer. -/
inductive PyVal where
  | int (n : Int)
  | str (s : String)
  | enumv (cls : String) (m : EnumMember)
  | noneV
deriving DecidableEq, Repr

deriving instance DecidableEq for Except

/-- Lookup in a Python dict built with `dict(pairs)`: a later pair with
    an equal key overwrites an earlier one, so the tail is consulted
    first. -/
def dictFind {α β : Type} [DecidableEq α] : List (α × β) → α → Option β
  | [], _ => none
  | p :: t, k =>
    match dictFind t k with
    | some v => some v
    | none => if p.1 = k then some p.2 else none

/-- `EnumBase.enumnamere = re.compile(r'[a-zA-Z][a-zA-Z0-9_]*$')`, used
    through `re.match`: the name must be a letter followed by word
    characters, reaching the end of the string (`$` also matches just
    before one final newline). -/
def enumnamere (s : String) : Bool :=
  match (if s.data.getLast? = some '\n' then s.data.dropLast else s.data) with
  | [] => false
  | c :: cs => c.isAlpha && cs.all (fun d => d.isAlpha || d.isDigit || d == '_')

/-- The registry state `_initialize` installs on an enum class:
    `cls._values` (declaration order), `cls._namedict` and
    `cls._valdict`. -/
structure EnumClass where
  members : List EnumMember
  namedict : List (String × EnumMember)
  valdict : List (Int × EnumMember)
deriving DecidableEq, Repr

/-- The registration loop of `EnumBase._initialize`: build the items
    from `zip(names,values)`, then `_namedict` and `_valdict` from the
    items. -/
def mkEnumClass (names : List String) (values : List Int) : EnumClass :=
  let items := (names.zip values).map (fun p => EnumMember.mk p.1 p.2)
  ⟨items, items.map (fun m => (m.name, m)), items.map (fun m => (m.value, m))⟩

/-- `EnumBase._initialize(names, values)`.  The first component is the
    construction result, the second is the list of `setattr(cls,n,item)`
    member registrations actually performed (the source validates every
    name and the lengths before its registration loop, so a failing
    construction registers nothing). -/
def initializeEnum (names : List String) (values : Option (List Int)) :
    Except String EnumClass × List (String × EnumMember) :=
  match names.find? (fun n => ¬ enumnamere n) with
  | some n => (Except.error ("Invalid enum item name " ++ n), [])
  | none =>
    match values with
    | none =>
      if ((List.range names.length).map Int.ofNat).length ≠ names.length then
        (Except.error "Lengths of names and values do not match", [])
      else
        (Except.ok (mkEnumClass names ((List.range names.length).map Int.ofNat)),
         (mkEnumClass names ((List.range names.length).map Int.ofNat)).members.map
           (fun m => (m.name, m)))
    | some vs =>
      if vs.length ≠ names.length then
        (Except.error "Lengths of names and values do not match", [])
      else
        (Except.ok (mkEnumClass names vs),
         (mkEnumClass names vs).members.map (fun m => (m.name, m)))

/-- `Enum(name,names,values)`: create a fresh class and `_initialize`
    it. -/
def pyEnum (names : List String) (values : Option (List Int)) :
    Except String EnumClass :=
  (initializeEnum names values).1

/-- `value.split('.')[-1]`: the suffix of the string after its last
    dot. -/
def lastDotComponent (s : String) : String :=
  String.mk ((s.data.reverse.takeWhile (fun c => c != '.')).reverse)

/-- `EnumBase.__new__(cls,value)`: an int (or an enum member, which is
    an int subclass) is looked up in `_valdict`; a string is looked up
    in `_namedict` after `value.split('.')[-1]`; anything else raises
    TypeError.  A missing dict key raises KeyError. -/
def enumNew (e : EnumClass) (v : PyVal) : Except PyExc EnumMember :=
  match v with
  | .int n =>
    match dictFind e.valdict n with
    | some m => .ok m
    | none => .error .keyError
  | .enumv _ m =>
    match dictFind e.valdict m.value with
    | some m2 => .ok m2
    | none => .error .keyError
  | .str s =>
    match dictFind e.namedict (lastDotComponent s) with
    | some m => .ok m
    | none => .error .keyError
  | .noneV => .error (.typeError "Invalid type for enum construction")

/-- Constructing an enum member from its integer code. -/
def lookup_by_value (e : EnumClass) (v : Int) : Except PyExc EnumMember :=
  enumNew e (.int v)

/-- Constructing an enum member from its symbolic name. -/
def lookup_by_name (e : EnumClass) (n : String) : Except PyExc EnumMember :=
  enumNew e (.str n)

/- Executable well-formedness checks for the concrete enum tables.  The
   name check maps each name to a numeric key (an order-preserving
   base-256 encoding padded to 64 characters) and checks the keys are
   strictly increasing; the value check runs a bit sieve.  Both give
   Nodup of the underlying lists. -/

/-- Order-reflecting numeric key for a short ASCII string. -/
def strKeyPad (s : String) : Nat :=
  (s.data.foldl (fun a c => a * 256 + c.toNat) 1) * 256 ^ (64 - s.data.length)

/-- Check that a list of naturals is strictly increasing. -/
def chainBltChk : List Nat → Bool
  | [] => true
  | [_] => true
  | a :: b :: t => decide (a < b) && chainBltChk (b :: t)

/-- Bit-sieve duplicate check for a list of naturals. -/
def sieveChk : List Nat → Nat → Bool
  | [], _ => true
  | v :: t, acc => !(acc.testBit v) && sieveChk t (acc ||| (1 <<< v))

/-- All well-formedness facts needed about one enum table: every name
    matches the identifier pattern, no name contains a dot, the two
    lists have equal length, the names are distinct and the values are
    distinct. -/
def enumChk (names : List String) (values : List Int) : Bool :=
  names.all enumnamere &&
  names.all (fun n => n.data.all (fun c => c != '.')) &&
  values.length == names.length &&
  chainBltChk (names.map strKeyPad) &&
  sieveChk (values.map Int.toNat) 0

def scoprNames : List String := [
  "ent", "exp", "log", "pow"]

def scoprVals : List Int := [
  0, 1, 2, 3]

def solveformNames : List String := [
  "dual", "free", "primal"]

def solveformVals : List Int := [
  2, 0, 1]

def problemitemNames : List String := [
  "con", "cone", "var"]

def problemitemVals : List Int := [
  1, 2, 0]

def accmodeNames : List String := [
  "con", "var"]

def accmodeVals : List Int := [
  1, 0]

def sensitivitytypeNames : List String := [
  "basis", "optimal_partition"]

def sensitivitytypeVals : List Int := [
  0, 1]

def uploNames : List String := [
  "lo", "up"]

def uploVals : List Int := [
  0, 1]

def intpnthotstartNames : List String := [
  "dual", "none", "primal", "primal_dual"]

def intpnthotstartVals : List Int := [
  2, 0, 1, 3]

def sparamNames : List String := [
  "bas_sol_file_name", "data_file_name", "debug_file_name", "int_sol_file_name", "itr_sol_file_name", "mio_debug_string",
  "param_comment_sign", "param_read_file_name", "param_write_file_name", "read_mps_bou_name", "read_mps_obj_name", "read_mps_ran_name",
  "read_mps_rhs_name", "remote_access_token", "sensitivity_file_name", "sensitivity_res_file_name", "sol_filter_xc_low", "sol_filter_xc_upr",
  "sol_filter_xx_low", "sol_filter_xx_upr", "stat_file_name", "stat_key", "stat_name", "write_lp_gen_var_name"]

def sparamVals : List Int := [
  0, 1, 2, 3, 4, 5, 6, 7, 8, 9, 10, 11, 12, 13, 14, 15, 16, 17,
  18, 19, 20, 21, 22, 23]

def iparamNames : List String := [
  "ana_sol_basis", "ana_sol_print_violated", "auto_sort_a_before_opt", "auto_update_sol_info", "basis_solve_use_plus_one", "bi_clean_optimizer",
  "bi_ignore_max_iter", "bi_ignore_num_error", "bi_max_iterations", "cache_license", "check_convexity", "compress_statfile",
  "infeas_generic_names", "infeas_prefer_primal", "infeas_report_auto", "infeas_report_level", "intpnt_basis", "intpnt_diff_step",
  "intpnt_hotstart", "intpnt_max_iterations", "intpnt_max_num_cor", "intpnt_max_num_refinement_steps", "intpnt_multi_thread", "intpnt_off_col_trh",
  "intpnt_order_method", "intpnt_regularization_use", "intpnt_scaling", "intpnt_solve_form", "intpnt_starting_point", "license_debug",
  "license_pause_time", "license_suppress_expire_wrns", "license_trh_expiry_wrn", "license_wait", "log", "log_ana_pro",
  "log_bi", "log_bi_freq", "log_check_convexity", "log_cut_second_opt", "log_expand", "log_feas_repair",
  "log_file", "log_infeas_ana", "log_intpnt", "log_mio", "log_mio_freq", "log_order",
  "log_presolve", "log_response", "log_sensitivity", "log_sensitivity_opt", "log_sim", "log_sim_freq",
  "log_sim_minor", "log_storage", "max_num_warnings", "mio_branch_dir", "mio_construct_sol", "mio_cut_clique",
  "mio_cut_cmir", "mio_cut_gmi", "mio_cut_implied_bound", "mio_cut_knapsack_cover", "mio_cut_selection_level", "mio_heuristic_level",
  "mio_max_num_branches", "mio_max_num_relaxs", "mio_max_num_solutions", "mio_mode", "mio_mt_user_cb", "mio_node_optimizer",
  "mio_node_selection", "mio_perspective_reformulate", "mio_probing_level", "mio_rins_max_nodes", "mio_root_optimizer", "mio_root_repeat_presolve_level",
  "mio_vb_detection_level", "mt_spincount", "num_threads", "opf_max_terms_per_line", "opf_write_header", "opf_write_hints",
  "opf_write_parameters", "opf_write_problem", "opf_write_sol_bas", "opf_write_sol_itg", "opf_write_sol_itr", "opf_write_solutions",
  "optimizer", "param_read_case_name", "param_read_ign_error", "presolve_eliminator_max_fill", "presolve_eliminator_max_num_tries", "presolve_level",
  "presolve_lindep_abs_work_trh", "presolve_lindep_rel_work_trh", "presolve_lindep_use", "presolve_max_num_reductions", "presolve_use", "primal_repair_optimizer",
  "read_data_compressed", "read_data_format", "read_debug", "read_keep_free_con", "read_lp_drop_new_vars_in_bou", "read_lp_quoted_names",
  "read_mps_format", "read_mps_width", "read_task_ignore_param", "remove_unused_solutions", "sensitivity_all", "sensitivity_optimizer",
  "sensitivity_type", "sim_basis_factor_use", "sim_degen", "sim_dual_crash", "sim_dual_phaseone_method", "sim_dual_restrict_selection",
  "sim_dual_selection", "sim_exploit_dupvec", "sim_hotstart", "sim_hotstart_lu", "sim_max_iterations", "sim_max_num_setbacks",
  "sim_non_singular", "sim_primal_crash", "sim_primal_phaseone_method", "sim_primal_restrict_selection", "sim_primal_selection", "sim_refactor_freq",
  "sim_reformulation", "sim_save_lu", "sim_scaling", "sim_scaling_method", "sim_solve_form", "sim_stability_priority",
  "sim_switch_optimizer", "sol_filter_keep_basic", "sol_filter_keep_ranged", "sol_read_name_width", "sol_read_width", "solution_callback",
  "timing_level", "write_bas_constraints", "write_bas_head", "write_bas_variables", "write_data_compressed", "write_data_format",
  "write_data_param", "write_free_con", "write_generic_names", "write_generic_names_io", "write_ignore_incompatible_items", "write_int_constraints",
  "write_int_head", "write_int_variables", "write_lp_full_obj", "write_lp_line_width", "write_lp_quoted_names", "write_lp_strict_format",
  "write_lp_terms_per_line", "write_mps_format", "write_mps_int", "write_precision", "write_sol_barvariables", "write_sol_constraints",
  "write_sol_head", "write_sol_ignore_invalid_names", "write_sol_variables", "write_task_inc_sol", "write_xml_mode"]

def iparamVals : List Int := [
  0, 1, 2, 3, 4, 5, 6, 7, 8, 9, 10, 11, 12, 13, 14, 15, 16, 17,
  18, 19, 20, 21, 22, 23, 24, 25, 26, 27, 28, 29, 30, 31, 32, 33, 34, 35,
  36, 37, 38, 39, 40, 41, 42, 43, 44, 45, 46, 47, 48, 49, 50, 51, 52, 53,
  54, 55, 56, 57, 58, 59, 60, 61, 62, 63, 64, 65, 66, 67, 68, 69, 70, 71,
  72, 73, 74, 75, 76, 77, 78, 79, 80, 81, 82, 83, 84, 85, 86, 87, 88, 89,
  90, 91, 92, 93, 94, 95, 96, 97, 98, 99, 100, 101, 102, 103, 104, 105, 106, 107,
  108, 109, 110, 111, 112, 113, 114, 115, 116, 117, 118, 119, 120, 121, 122, 123, 124, 125,
  126, 127, 128, 129, 130, 131, 132, 133, 134, 135, 136, 137, 138, 139, 140, 141, 142, 143,
  144, 145, 146, 147, 148, 149, 150, 151, 152, 153, 154, 155, 156, 157, 158, 159, 160, 161,
  162, 163, 164, 165, 166, 167, 168, 169, 170, 171, 172]

def solstaNames : List String := [
  "dual_feas", "dual_illposed_cer", "dual_infeas_cer", "integer_optimal", "near_dual_feas", "near_dual_infeas_cer",
  "near_integer_optimal", "near_optimal", "near_prim_and_dual_feas", "near_prim_feas", "near_prim_infeas_cer", "optimal",
  "prim_and_dual_feas", "prim_feas", "prim_illposed_cer", "prim_infeas_cer", "unknown"]

def solstaVals : List Int := [
  3, 14, 6, 15, 9, 12, 16, 7, 10, 8, 11, 1, 4, 2, 13, 5, 0]

def objsenseNames : List String := [
  "maximize", "minimize"]

def objsenseVals : List Int := [
  1, 0]

def solitemNames : List String := [
  "slc", "slx", "snx", "suc", "sux", "xc",
  "xx", "y"]

def solitemVals : List Int := [
  3, 5, 7, 4, 6, 0, 1, 2]

def boundkeyNames : List String := [
  "fr", "fx", "lo", "ra", "up"]

def boundkeyVals : List Int := [
  3, 2, 0, 4, 1]

def basindtypeNames : List String := [
  "always", "if_feasible", "never", "no_error", "reservered"]

def basindtypeVals : List Int := [
  1, 3, 0, 2, 4]

def branchdirNames : List String := [
  "down", "far", "free", "guided", "near", "pseudocost",
  "root_lp", "up"]

def branchdirVals : List Int := [
  2, 4, 0, 6, 3, 7, 5, 1]

def liinfitemNames : List String := [
  "bi_clean_dual_deg_iter", "bi_clean_dual_iter", "bi_clean_primal_deg_iter", "bi_clean_primal_iter", "bi_dual_iter", "bi_primal_iter",
  "intpnt_factor_num_nz", "mio_intpnt_iter", "mio_presolved_anz", "mio_sim_maxiter_setbacks", "mio_simplex_iter", "rd_numanz",
  "rd_numqnz"]

def liinfitemVals : List Int := [
  0, 1, 2, 3, 4, 5, 6, 7, 8, 9, 10, 11, 12]

def simhotstartNames : List String := [
  "free", "none", "status_keys"]

def simhotstartVals : List Int := [
  1, 0, 2]

def callbackcodeNames : List String := [
  "begin_bi", "begin_conic", "begin_dual_bi", "begin_dual_sensitivity", "begin_dual_setup_bi", "begin_dual_simplex",
  "begin_dual_simplex_bi", "begin_full_convexity_check", "begin_infeas_ana", "begin_intpnt", "begin_license_wait", "begin_mio",
  "begin_optimizer", "begin_presolve", "begin_primal_bi", "begin_primal_repair", "begin_primal_sensitivity", "begin_primal_setup_bi",
  "begin_primal_simplex", "begin_primal_simplex_bi", "begin_qcqo_reformulate", "begin_read", "begin_root_cutgen", "begin_simplex",
  "begin_simplex_bi", "begin_to_conic", "begin_write", "conic", "dual_simplex", "end_bi",
  "end_conic", "end_dual_bi", "end_dual_sensitivity", "end_dual_setup_bi", "end_dual_simplex", "end_dual_simplex_bi",
  "end_full_convexity_check", "end_infeas_ana", "end_intpnt", "end_license_wait", "end_mio", "end_optimizer",
  "end_presolve", "end_primal_bi", "end_primal_repair", "end_primal_sensitivity", "end_primal_setup_bi", "end_primal_simplex",
  "end_primal_simplex_bi", "end_qcqo_reformulate", "end_read", "end_root_cutgen", "end_simplex", "end_simplex_bi",
  "end_to_conic", "end_write", "im_bi", "im_conic", "im_dual_bi", "im_dual_sensivity",
  "im_dual_simplex", "im_full_convexity_check", "im_intpnt", "im_license_wait", "im_lu", "im_mio",
  "im_mio_dual_simplex", "im_mio_intpnt", "im_mio_primal_simplex", "im_order", "im_presolve", "im_primal_bi",
  "im_primal_sensivity", "im_primal_simplex", "im_qo_reformulate", "im_read", "im_root_cutgen", "im_simplex",
  "im_simplex_bi", "intpnt", "new_int_mio", "primal_simplex", "read_opf", "read_opf_section",
  "solving_remote", "update_dual_bi", "update_dual_simplex", "update_dual_simplex_bi", "update_presolve", "update_primal_bi",
  "update_primal_simplex", "update_primal_simplex_bi", "write_opf"]

def callbackcodeVals : List Int := [
  0, 1, 2, 3, 4, 5, 6, 7, 8, 9, 10, 11, 12, 13, 14, 15, 16, 17,
  18, 19, 20, 21, 22, 23, 24, 25, 26, 27, 28, 29, 30, 31, 32, 33, 34, 35,
  36, 37, 38, 39, 40, 41, 42, 43, 44, 45, 46, 47, 48, 49, 50, 51, 52, 53,
  54, 55, 56, 57, 58, 59, 60, 61, 62, 63, 64, 65, 66, 67, 68, 69, 70, 71,
  72, 73, 74, 75, 76, 77, 78, 79, 80, 81, 82, 83, 84, 85, 86, 87, 88, 89,
  90, 91, 92]

def symmattypeNames : List String := [
  "sparse"]

def symmattypeVals : List Int := [
  0]

def featureNames : List String := [
  "pton", "pts"]

def featureVals : List Int := [
  1, 0]

def markNames : List String := [
  "lo", "up"]

def markVals : List Int := [
  0, 1]

def conetypeNames : List String := [
  "quad", "rquad"]

def conetypeVals : List Int := [
  0, 1]

def streamtypeNames : List String := [
  "err", "log", "msg", "wrn"]

def streamtypeVals : List Int := [
  2, 0, 1, 3]

def iomodeNames : List String := [
  "read", "readwrite", "write"]

def iomodeVals : List Int := [
  0, 2, 1]

def simseltypeNames : List String := [
  "ase", "devex", "free", "full", "partial", "se"]

def simseltypeVals : List Int := [
  2, 3, 0, 1, 5, 4]

def xmlwriteroutputtypeNames : List String := [
  "col", "row"]

def xmlwriteroutputtypeVals : List Int := [
  1, 0]

def miomodeNames : List String := [
  "ignored", "satisfied"]

def miomodeVals : List Int := [
  0, 1]

def dinfitemNames : List String := [
  "bi_clean_dual_time", "bi_clean_primal_time", "bi_clean_time", "bi_dual_time", "bi_primal_time", "bi_time",
  "intpnt_dual_feas", "intpnt_dual_obj", "intpnt_factor_num_flops", "intpnt_opt_status", "intpnt_order_time", "intpnt_primal_feas",
  "intpnt_primal_obj", "intpnt_time", "mio_clique_separation_time", "mio_cmir_separation_time", "mio_construct_solution_obj", "mio_dual_bound_after_presolve",
  "mio_gmi_separation_time", "mio_heuristic_time", "mio_implied_bound_time", "mio_knapsack_cover_separation_time", "mio_obj_abs_gap", "mio_obj_bound",
  "mio_obj_int", "mio_obj_rel_gap", "mio_optimizer_time", "mio_probing_time", "mio_root_cutgen_time", "mio_root_optimizer_time",
  "mio_root_presolve_time", "mio_time", "mio_user_obj_cut", "optimizer_time", "presolve_eli_time", "presolve_lindep_time",
  "presolve_time", "primal_repair_penalty_obj", "qcqo_reformulate_max_perturbation", "qcqo_reformulate_time", "qcqo_reformulate_worst_cholesky_column_scaling", "qcqo_reformulate_worst_cholesky_diag_scaling",
  "rd_time", "sim_dual_time", "sim_feas", "sim_obj", "sim_primal_time", "sim_time",
  "sol_bas_dual_obj", "sol_bas_dviolcon", "sol_bas_dviolvar", "sol_bas_nrm_barx", "sol_bas_nrm_slc", "sol_bas_nrm_slx",
  "sol_bas_nrm_suc", "sol_bas_nrm_sux", "sol_bas_nrm_xc", "sol_bas_nrm_xx", "sol_bas_nrm_y", "sol_bas_primal_obj",
  "sol_bas_pviolcon", "sol_bas_pviolvar", "sol_itg_nrm_barx", "sol_itg_nrm_xc", "sol_itg_nrm_xx", "sol_itg_primal_obj",
  "sol_itg_pviolbarvar", "sol_itg_pviolcon", "sol_itg_pviolcones", "sol_itg_pviolitg", "sol_itg_pviolvar", "sol_itr_dual_obj",
  "sol_itr_dviolbarvar", "sol_itr_dviolcon", "sol_itr_dviolcones", "sol_itr_dviolvar", "sol_itr_nrm_bars", "sol_itr_nrm_barx",
  "sol_itr_nrm_slc", "sol_itr_nrm_slx", "sol_itr_nrm_snx", "sol_itr_nrm_suc", "sol_itr_nrm_sux", "sol_itr_nrm_xc",
  "sol_itr_nrm_xx", "sol_itr_nrm_y", "sol_itr_primal_obj", "sol_itr_pviolbarvar", "sol_itr_pviolcon", "sol_itr_pviolcones",
  "sol_itr_pviolvar", "to_conic_time"]

def dinfitemVals : List Int := [
  0, 1, 2, 3, 4, 5, 6, 7, 8, 9, 10, 11, 12, 13, 14, 15, 16, 17,
  18, 19, 20, 21, 22, 23, 24, 25, 26, 27, 28, 29, 30, 31, 32, 33, 34, 35,
  36, 37, 38, 39, 40, 41, 42, 43, 44, 45, 46, 47, 48, 49, 50, 51, 52, 53,
  54, 55, 56, 57, 58, 59, 60, 61, 62, 63, 64, 65, 66, 67, 68, 69, 70, 71,
  72, 73, 74, 75, 76, 77, 78, 79, 80, 81, 82, 83, 84, 85, 86, 87, 88, 89,
  90, 91]

def parametertypeNames : List String := [
  "dou_type", "int_type", "invalid_type", "str_type"]

def parametertypeVals : List Int := [
  1, 2, 0, 3]

def rescodetypeNames : List String := [
  "err", "ok", "trm", "unk", "wrn"]

def rescodetypeVals : List Int := [
  3, 0, 2, 4, 1]

def prostaNames : List String := [
  "dual_feas", "dual_infeas", "ill_posed", "near_dual_feas", "near_prim_and_dual_feas", "near_prim_feas",
  "prim_and_dual_feas", "prim_and_dual_infeas", "prim_feas", "prim_infeas", "prim_infeas_or_unbounded", "unknown"]

def prostaVals : List Int := [
  3, 5, 7, 10, 8, 9, 1, 6, 2, 4, 11, 0]

def scalingtypeNames : List String := [
  "aggressive", "free", "moderate", "none"]

def scalingtypeVals : List Int := [
  3, 0, 2, 1]

def rescodeNames : List String := [
  "err_ad_invalid_codelist", "err_api_array_too_small", "err_api_cb_connect", "err_api_fatal_error", "err_api_internal", "err_arg_is_too_large",
  "err_arg_is_too_small", "err_argument_dimension", "err_argument_is_too_large", "err_argument_lenneq", "err_argument_perm_array", "err_argument_type",
  "err_bar_var_dim", "err_basis", "err_basis_factor", "err_basis_singular", "err_blank_name", "err_cannot_clone_nl",
  "err_cannot_handle_nl", "err_cbf_duplicate_acoord", "err_cbf_duplicate_bcoord", "err_cbf_duplicate_con", "err_cbf_duplicate_int", "err_cbf_duplicate_obj",
  "err_cbf_duplicate_objacoord", "err_cbf_duplicate_psdvar", "err_cbf_duplicate_var", "err_cbf_invalid_con_type", "err_cbf_invalid_domain_dimension", "err_cbf_invalid_int_index",
  "err_cbf_invalid_psdvar_dimension", "err_cbf_invalid_var_type", "err_cbf_no_variables", "err_cbf_no_version_specified", "err_cbf_obj_sense", "err_cbf_parse",
  "err_cbf_syntax", "err_cbf_too_few_constraints", "err_cbf_too_few_ints", "err_cbf_too_few_psdvar", "err_cbf_too_few_variables", "err_cbf_too_many_constraints",
  "err_cbf_too_many_ints", "err_cbf_too_many_variables", "err_cbf_unsupported", "err_con_q_not_nsd", "err_con_q_not_psd", "err_cone_index",
  "err_cone_overlap", "err_cone_overlap_append", "err_cone_rep_var", "err_cone_size", "err_cone_type", "err_cone_type_str",
  "err_data_file_ext", "err_dup_name", "err_duplicate_aij", "err_duplicate_barvariable_names", "err_duplicate_cone_names", "err_duplicate_constraint_names",
  "err_duplicate_variable_names", "err_end_of_file", "err_factor", "err_feasrepair_cannot_relax", "err_feasrepair_inconsistent_bound", "err_feasrepair_solving_relaxed",
  "err_file_license", "err_file_open", "err_file_read", "err_file_write", "err_final_solution", "err_first",
  "err_firsti", "err_firstj", "err_fixed_bound_values", "err_flexlm", "err_global_inv_conic_problem", "err_huge_aij",
  "err_huge_c", "err_identical_tasks", "err_in_argument", "err_index", "err_index_arr_is_too_large", "err_index_arr_is_too_small",
  "err_index_is_too_large", "err_index_is_too_small", "err_inf_dou_index", "err_inf_dou_name", "err_inf_int_index", "err_inf_int_name",
  "err_inf_lint_index", "err_inf_lint_name", "err_inf_type", "err_infeas_undefined", "err_infinite_bound", "err_int64_to_int32_cast",
  "err_internal", "err_internal_test_failed", "err_inv_aptre", "err_inv_bk", "err_inv_bkc", "err_inv_bkx",
  "err_inv_cone_type", "err_inv_cone_type_str", "err_inv_marki", "err_inv_markj", "err_inv_name_item", "err_inv_numi",
  "err_inv_numj", "err_inv_optimizer", "err_inv_problem", "err_inv_qcon_subi", "err_inv_qcon_subj", "err_inv_qcon_subk",
  "err_inv_qcon_val", "err_inv_qobj_subi", "err_inv_qobj_subj", "err_inv_qobj_val", "err_inv_sk", "err_inv_sk_str",
  "err_inv_skc", "err_inv_skn", "err_inv_skx", "err_inv_var_type", "err_invalid_accmode", "err_invalid_aij",
  "err_invalid_ampl_stub", "err_invalid_barvar_name", "err_invalid_compression", "err_invalid_con_name", "err_invalid_cone_name", "err_invalid_file_format_for_cones",
  "err_invalid_file_format_for_general_nl", "err_invalid_file_format_for_sym_mat", "err_invalid_file_name", "err_invalid_format_type", "err_invalid_idx", "err_invalid_iomode",
  "err_invalid_max_num", "err_invalid_name_in_sol_file", "err_invalid_obj_name", "err_invalid_objective_sense", "err_invalid_problem_type", "err_invalid_sol_file_name",
  "err_invalid_stream", "err_invalid_surplus", "err_invalid_sym_mat_dim", "err_invalid_task", "err_invalid_utf8", "err_invalid_var_name",
  "err_invalid_wchar", "err_invalid_whichsol", "err_json_data", "err_json_format", "err_json_missing_data", "err_json_number_overflow",
  "err_json_string", "err_json_syntax", "err_last", "err_lasti", "err_lastj", "err_lau_arg_k",
  "err_lau_arg_m", "err_lau_arg_n", "err_lau_arg_trans", "err_lau_arg_transa", "err_lau_arg_transb", "err_lau_arg_uplo",
  "err_lau_invalid_lower_triangular_matrix", "err_lau_invalid_sparse_symmetric_matrix", "err_lau_not_positive_definite", "err_lau_singular_matrix", "err_lau_unknown", "err_license",
  "err_license_cannot_allocate", "err_license_cannot_connect", "err_license_expired", "err_license_feature", "err_license_invalid_hostid", "err_license_max",
  "err_license_moseklm_daemon", "err_license_no_server_line", "err_license_no_server_support", "err_license_server", "err_license_server_version", "err_license_version",
  "err_link_file_dll", "err_living_tasks", "err_lower_bound_is_a_nan", "err_lp_dup_slack_name", "err_lp_empty", "err_lp_file_format",
  "err_lp_format", "err_lp_free_constraint", "err_lp_incompatible", "err_lp_invalid_con_name", "err_lp_invalid_var_name", "err_lp_write_conic_problem",
  "err_lp_write_geco_problem", "err_lu_max_num_tries", "err_max_len_is_too_small", "err_maxnumbarvar", "err_maxnumcon", "err_maxnumcone",
  "err_maxnumqnz", "err_maxnumvar", "err_mio_internal", "err_mio_invalid_node_optimizer", "err_mio_invalid_root_optimizer", "err_mio_no_optimizer",
  "err_missing_license_file", "err_mixed_conic_and_nl", "err_mps_cone_overlap", "err_mps_cone_repeat", "err_mps_cone_type", "err_mps_duplicate_q_element",
  "err_mps_file", "err_mps_inv_bound_key", "err_mps_inv_con_key", "err_mps_inv_field", "err_mps_inv_marker", "err_mps_inv_sec_name",
  "err_mps_inv_sec_order", "err_mps_invalid_obj_name", "err_mps_invalid_objsense", "err_mps_mul_con_name", "err_mps_mul_csec", "err_mps_mul_qobj",
  "err_mps_mul_qsec", "err_mps_no_objective", "err_mps_non_symmetric_q", "err_mps_null_con_name", "err_mps_null_var_name", "err_mps_splitted_var",
  "err_mps_tab_in_field2", "err_mps_tab_in_field3", "err_mps_tab_in_field5", "err_mps_undef_con_name", "err_mps_undef_var_name", "err_mul_a_element",
  "err_name_is_null", "err_name_max_len", "err_nan_in_blc", "err_nan_in_blx", "err_nan_in_buc", "err_nan_in_bux",
  "err_nan_in_c", "err_nan_in_double_data", "err_negative_append", "err_negative_surplus", "err_newer_dll", "err_no_bars_for_solution",
  "err_no_barx_for_solution", "err_no_basis_sol", "err_no_dual_for_itg_sol", "err_no_dual_infeas_cer", "err_no_init_env", "err_no_optimizer_var_type",
  "err_no_primal_infeas_cer", "err_no_snx_for_bas_sol", "err_no_solution_in_callback", "err_non_unique_array", "err_nonconvex", "err_nonlinear_equality",
  "err_nonlinear_functions_not_allowed", "err_nonlinear_ranged", "err_nr_arguments", "err_null_env", "err_null_pointer", "err_null_task",
  "err_numconlim", "err_numvarlim", "err_obj_q_not_nsd", "err_obj_q_not_psd", "err_objective_range", "err_older_dll",
  "err_open_dl", "err_opf_format", "err_opf_new_variable", "err_opf_premature_eof", "err_optimizer_license", "err_overflow",
  "err_param_index", "err_param_is_too_large", "err_param_is_too_small", "err_param_name", "err_param_name_dou", "err_param_name_int",
  "err_param_name_str", "err_param_type", "err_param_value_str", "err_platform_not_licensed", "err_postsolve", "err_pro_item",
  "err_prob_license", "err_qcon_subi_too_large", "err_qcon_subi_too_small", "err_qcon_upper_triangle", "err_qobj_upper_triangle", "err_read_format",
  "err_read_lp_missing_end_tag", "err_read_lp_nonexisting_name", "err_remove_cone_variable", "err_repair_invalid_problem", "err_repair_optimization_failed", "err_sen_bound_invalid_lo",
  "err_sen_bound_invalid_up", "err_sen_format", "err_sen_index_invalid", "err_sen_index_range", "err_sen_invalid_regexp", "err_sen_numerical",
  "err_sen_solution_status", "err_sen_undef_name", "err_sen_unhandled_problem_type", "err_server_connect", "err_server_protocol", "err_server_status",
  "err_server_token", "err_size_license", "err_size_license_con", "err_size_license_intvar", "err_size_license_numcores", "err_size_license_var",
  "err_sol_file_invalid_number", "err_solitem", "err_solver_probtype", "err_space", "err_space_leaking", "err_space_no_info",
  "err_sym_mat_duplicate", "err_sym_mat_huge", "err_sym_mat_invalid", "err_sym_mat_invalid_col_index", "err_sym_mat_invalid_row_index", "err_sym_mat_invalid_value",
  "err_sym_mat_not_lower_tringular", "err_task_incompatible", "err_task_invalid", "err_task_write", "err_thread_cond_init", "err_thread_create",
  "err_thread_mutex_init", "err_thread_mutex_lock", "err_thread_mutex_unlock", "err_toconic_constr_not_conic", "err_toconic_constr_q_not_psd", "err_toconic_constraint_fx",
  "err_toconic_constraint_ra", "err_toconic_objective_not_psd", "err_too_small_max_num_nz", "err_too_small_maxnumanz", "err_unb_step_size", "err_undef_solution",
  "err_undefined_objective_sense", "err_unhandled_solution_status", "err_unknown", "err_upper_bound_is_a_nan", "err_upper_triangle", "err_user_func_ret",
  "err_user_func_ret_data", "err_user_nlo_eval", "err_user_nlo_eval_hessubi", "err_user_nlo_eval_hessubj", "err_user_nlo_func", "err_whichitem_not_allowed",
  "err_whichsol", "err_write_lp_format", "err_write_lp_non_unique_name", "err_write_mps_invalid_name", "err_write_opf_invalid_var_name", "err_writing_file",
  "err_xml_invalid_problem_type", "err_y_is_undefined", "ok", "trm_internal", "trm_internal_stop", "trm_max_iterations",
  "trm_max_num_setbacks", "trm_max_time", "trm_mio_near_abs_gap", "trm_mio_near_rel_gap", "trm_mio_num_branches", "trm_mio_num_relaxs",
  "trm_num_max_num_int_solutions", "trm_numerical_problem", "trm_objective_range", "trm_stall", "trm_user_callback", "wrn_ana_almost_int_bounds",
  "wrn_ana_c_zero", "wrn_ana_close_bounds", "wrn_ana_empty_cols", "wrn_ana_large_bounds", "wrn_construct_invalid_sol_itg", "wrn_construct_no_sol_itg",
  "wrn_construct_solution_infeas", "wrn_dropped_nz_qobj", "wrn_duplicate_barvariable_names", "wrn_duplicate_cone_names", "wrn_duplicate_constraint_names", "wrn_duplicate_variable_names",
  "wrn_eliminator_space", "wrn_empty_name", "wrn_ignore_integer", "wrn_incomplete_linear_dependency_check", "wrn_large_aij", "wrn_large_bound",
  "wrn_large_cj", "wrn_large_con_fx", "wrn_large_lo_bound", "wrn_large_up_bound", "wrn_license_expire", "wrn_license_feature_expire",
  "wrn_license_server", "wrn_lp_drop_variable", "wrn_lp_old_quad_format", "wrn_mio_infeasible_final", "wrn_mps_split_bou_vector", "wrn_mps_split_ran_vector",
  "wrn_mps_split_rhs_vector", "wrn_name_max_len", "wrn_no_dualizer", "wrn_no_global_optimizer", "wrn_no_nonlinear_function_write", "wrn_nz_in_upr_tri",
  "wrn_open_param_file", "wrn_param_ignored_cmio", "wrn_param_name_dou", "wrn_param_name_int", "wrn_param_name_str", "wrn_param_str_value",
  "wrn_presolve_outofspace", "wrn_quad_cones_with_root_fixed_at_zero", "wrn_rquad_cones_with_root_fixed_at_zero", "wrn_sol_file_ignored_con", "wrn_sol_file_ignored_var", "wrn_sol_filter",
  "wrn_spar_max_len", "wrn_sym_mat_large", "wrn_too_few_basis_vars", "wrn_too_many_basis_vars", "wrn_undef_sol_file_name", "wrn_using_generic_names",
  "wrn_write_changed_names", "wrn_write_discarded_cfix", "wrn_zero_aij", "wrn_zeros_in_sparse_col", "wrn_zeros_in_sparse_row"]

def rescodeVals : List Int := [
  3102, 3001, 3002, 3005, 3999, 1227, 1226, 1201, 5005, 1197, 1299, 1198, 3920, 1266, 1610, 1615, 1070, 2505,
  2506, 7116, 7115, 7108, 7110, 7107, 7114, 7123, 7109, 7112, 7113, 7121, 7124, 7111, 7102, 7105, 7101, 7100,
  7106, 7118, 7119, 7125, 7117, 7103, 7120, 7104, 7122, 1294, 1293, 1300, 1302, 1307, 1303, 1301, 1305, 1306,
  1055, 1071, 1385, 4502, 4503, 4500, 4501, 1059, 1650, 1700, 1702, 1701, 1007, 1052, 1053, 1054, 1560, 1261,
  1285, 1287, 1425, 1014, 1503, 1380, 1375, 3101, 1200, 1235, 1222, 1221, 1204, 1203, 1219, 1230, 1220, 1231,
  1225, 1234, 1232, 3910, 1400, 3800, 3000, 3500, 1253, 1255, 1256, 1257, 1272, 1271, 2501, 2502, 1280, 2503,
  2504, 1550, 1500, 1405, 1406, 1404, 1407, 1401, 1402, 1403, 1270, 1269, 1267, 1274, 1268, 1258, 2520, 1473,
  3700, 1079, 1800, 1076, 1078, 4005, 4010, 4000, 1056, 1283, 1246, 1801, 1247, 1170, 1075, 1445, 6000, 1057,
  1062, 1275, 3950, 1064, 2900, 1077, 2901, 1228, 1179, 1178, 1180, 1177, 1176, 1175, 1262, 1286, 1288, 7012,
  7010, 7011, 7018, 7015, 7016, 7017, 7002, 7019, 7001, 7000, 7005, 1000, 1020, 1021, 1001, 1018, 1025, 1016,
  1017, 1028, 1027, 1015, 1026, 1002, 1040, 1066, 1390, 1152, 1151, 1157, 1160, 1155, 1150, 1171, 1154, 1163,
  1164, 2800, 1289, 1242, 1240, 1304, 1243, 1241, 5010, 7131, 7130, 1551, 1008, 1501, 1118, 1119, 1117, 1121,
  1100, 1108, 1107, 1101, 1102, 1109, 1115, 1128, 1122, 1112, 1116, 1114, 1113, 1110, 1120, 1103, 1104, 1111,
  1125, 1126, 1127, 1105, 1106, 1254, 1760, 1750, 1461, 1471, 1462, 1472, 1470, 1450, 1264, 1263, 1036, 3916,
  3915, 1600, 2950, 2001, 1063, 1552, 2000, 2953, 2500, 5000, 1291, 1290, 1428, 1292, 1199, 1060, 1065, 1061,
  1250, 1251, 1296, 1295, 1260, 1035, 1030, 1168, 1169, 1172, 1013, 1590, 1210, 1215, 1216, 1205, 1206, 1207,
  1208, 1218, 1217, 1019, 1580, 1281, 1006, 1409, 1408, 1417, 1415, 1090, 1159, 1162, 1310, 1710, 1711, 3054,
  3053, 3050, 3055, 3052, 3056, 3058, 3057, 3051, 3080, 8000, 8001, 8002, 8003, 1005, 1010, 1012, 3900, 1011,
  1350, 1237, 1259, 1051, 1080, 1081, 3944, 1482, 1480, 3941, 3940, 3943, 3942, 2560, 2561, 2562, 1049, 1048,
  1045, 1046, 1047, 7153, 7150, 7151, 7152, 7155, 1245, 1252, 3100, 1265, 1446, 6010, 1050, 1391, 6020, 1430,
  1431, 1433, 1440, 1441, 1432, 1238, 1236, 1158, 1161, 1153, 1156, 1166, 3600, 1449, 0, 10030, 10031, 10000,
  10020, 10001, 10004, 10003, 10009, 10008, 10015, 10025, 10002, 10006, 10007, 904, 901, 903, 902, 900, 807, 810,
  805, 201, 852, 853, 850, 851, 801, 502, 250, 800, 62, 51, 57, 54, 52, 53, 500, 505,
  501, 85, 80, 270, 72, 71, 70, 65, 950, 251, 450, 200, 50, 516, 510, 511, 512, 515,
  802, 930, 931, 351, 352, 300, 66, 960, 400, 405, 350, 503, 803, 804, 63, 710, 705]

def mionodeseltypeNames : List String := [
  "best", "first", "free", "hybrid", "pseudo", "worst"]

def mionodeseltypeVals : List Int := [
  2, 1, 0, 4, 5, 3]

def transposeNames : List String := [
  "no", "yes"]

def transposeVals : List Int := [
  0, 1]

def onoffkeyNames : List String := [
  "off", "on"]

def onoffkeyVals : List Int := [
  0, 1]

def simdegenNames : List String := [
  "aggressive", "free", "minimum", "moderate", "none"]

def simdegenVals : List Int := [
  2, 1, 4, 3, 0]

def dataformatNames : List String := [
  "cb", "extension", "free_mps", "json_task", "lp", "mps",
  "op", "task", "xml"]

def dataformatVals : List Int := [
  7, 0, 5, 8, 2, 1, 3, 6, 4]

def orderingtypeNames : List String := [
  "appminloc", "experimental", "force_graphpar", "free", "none", "try_graphpar"]

def orderingtypeVals : List Int := [
  1, 2, 4, 0, 5, 3]

def problemtypeNames : List String := [
  "conic", "geco", "lo", "mixed", "qcqo", "qo"]

def problemtypeVals : List Int := [
  4, 3, 0, 5, 2, 1]

def inftypeNames : List String := [
  "dou_type", "int_type", "lint_type"]

def inftypeVals : List Int := [
  0, 1, 2]

def dparamNames : List String := [
  "ana_sol_infeas_tol", "basis_rel_tol_s", "basis_tol_s", "basis_tol_x", "check_convexity_rel_tol", "data_sym_mat_tol",
  "data_sym_mat_tol_huge", "data_sym_mat_tol_large", "data_tol_aij", "data_tol_aij_huge", "data_tol_aij_large", "data_tol_bound_inf",
  "data_tol_bound_wrn", "data_tol_c_huge", "data_tol_cj_large", "data_tol_qij", "data_tol_x", "intpnt_co_tol_dfeas",
  "intpnt_co_tol_infeas", "intpnt_co_tol_mu_red", "intpnt_co_tol_near_rel", "intpnt_co_tol_pfeas", "intpnt_co_tol_rel_gap", "intpnt_nl_merit_bal",
  "intpnt_nl_tol_dfeas", "intpnt_nl_tol_mu_red", "intpnt_nl_tol_near_rel", "intpnt_nl_tol_pfeas", "intpnt_nl_tol_rel_gap", "intpnt_nl_tol_rel_step",
  "intpnt_qo_tol_dfeas", "intpnt_qo_tol_infeas", "intpnt_qo_tol_mu_red", "intpnt_qo_tol_near_rel", "intpnt_qo_tol_pfeas", "intpnt_qo_tol_rel_gap",
  "intpnt_tol_dfeas", "intpnt_tol_dsafe", "intpnt_tol_infeas", "intpnt_tol_mu_red", "intpnt_tol_path", "intpnt_tol_pfeas",
  "intpnt_tol_psafe", "intpnt_tol_rel_gap", "intpnt_tol_rel_step", "intpnt_tol_step_size", "lower_obj_cut", "lower_obj_cut_finite_trh",
  "mio_disable_term_time", "mio_max_time", "mio_near_tol_abs_gap", "mio_near_tol_rel_gap", "mio_rel_gap_const", "mio_tol_abs_gap",
  "mio_tol_abs_relax_int", "mio_tol_feas", "mio_tol_rel_dual_bound_improvement", "mio_tol_rel_gap", "optimizer_max_time", "presolve_tol_abs_lindep",
  "presolve_tol_aij", "presolve_tol_rel_lindep", "presolve_tol_s", "presolve_tol_x", "qcqo_reformulate_rel_drop_tol", "semidefinite_tol_approx",
  "sim_lu_tol_rel_piv", "simplex_abs_tol_piv", "upper_obj_cut", "upper_obj_cut_finite_trh"]

def dparamVals : List Int := [
  0, 1, 2, 3, 4, 5, 6, 7, 8, 9, 10, 11, 12, 13, 14, 15, 16, 17,
  18, 19, 20, 21, 22, 23, 24, 25, 26, 27, 28, 29, 30, 31, 32, 33, 34, 35,
  36, 37, 38, 39, 40, 41, 42, 43, 44, 45, 46, 47, 48, 49, 50, 51, 52, 53,
  54, 55, 56, 57, 58, 59, 60, 61, 62, 63, 64, 65, 66, 67, 68, 69]

def simdupvecNames : List String := [
  "free", "off", "on"]

def simdupvecVals : List Int := [
  2, 0, 1]

def compresstypeNames : List String := [
  "free", "gzip", "none"]

def compresstypeVals : List Int := [
  1, 2, 0]

def nametypeNames : List String := [
  "gen", "lp", "mps"]

def nametypeVals : List Int := [
  0, 2, 1]

def mpsformatNames : List String := [
  "cplex", "free", "relaxed", "strict"]

def mpsformatVals : List Int := [
  3, 2, 1, 0]

def variabletypeNames : List String := [
  "type_cont", "type_int"]

def variabletypeVals : List Int := [
  0, 1]

def checkconvexitytypeNames : List String := [
  "full", "none", "simple"]

def checkconvexitytypeVals : List Int := [
  2, 0, 1]

def languageNames : List String := [
  "dan", "eng"]

def languageVals : List Int := [
  1, 0]

def startpointtypeNames : List String := [
  "constant", "free", "guess", "satisfy_bounds"]

def startpointtypeVals : List Int := [
  2, 0, 1, 3]

def soltypeNames : List String := [
  "bas", "itg", "itr"]

def soltypeVals : List Int := [
  1, 2, 0]

def scalingmethodNames : List String := [
  "free", "pow2"]

def scalingmethodVals : List Int := [
  1, 0]

def valueNames : List String := [
  "license_buffer_length", "max_str_len"]

def valueVals : List Int := [
  21, 1024]

def simreformNames : List String := [
  "aggressive", "free", "off", "on"]

def simreformVals : List Int := [
  3, 2, 0, 1]

def iinfitemNames : List String := [
  "ana_pro_num_con", "ana_pro_num_con_eq", "ana_pro_num_con_fr", "ana_pro_num_con_lo", "ana_pro_num_con_ra", "ana_pro_num_con_up",
  "ana_pro_num_var", "ana_pro_num_var_bin", "ana_pro_num_var_cont", "ana_pro_num_var_eq", "ana_pro_num_var_fr", "ana_pro_num_var_int",
  "ana_pro_num_var_lo", "ana_pro_num_var_ra", "ana_pro_num_var_up", "intpnt_factor_dim_dense", "intpnt_iter", "intpnt_num_threads",
  "intpnt_solve_dual", "mio_absgap_satisfied", "mio_clique_table_size", "mio_construct_num_roundings", "mio_construct_solution", "mio_initial_solution",
  "mio_near_absgap_satisfied", "mio_near_relgap_satisfied", "mio_node_depth", "mio_num_active_nodes", "mio_num_branch", "mio_num_clique_cuts",
  "mio_num_cmir_cuts", "mio_num_gomory_cuts", "mio_num_implied_bound_cuts", "mio_num_int_solutions", "mio_num_knapsack_cover_cuts", "mio_num_relax",
  "mio_num_repeated_presolve", "mio_numcon", "mio_numint", "mio_numvar", "mio_obj_bound_defined", "mio_presolved_numbin",
  "mio_presolved_numcon", "mio_presolved_numcont", "mio_presolved_numint", "mio_presolved_numvar", "mio_relgap_satisfied", "mio_total_num_cuts",
  "mio_user_obj_cut", "opt_numcon", "opt_numvar", "optimize_response", "rd_numbarvar", "rd_numcon",
  "rd_numcone", "rd_numintvar", "rd_numq", "rd_numvar", "rd_protype", "sim_dual_deg_iter",
  "sim_dual_hotstart", "sim_dual_hotstart_lu", "sim_dual_inf_iter", "sim_dual_iter", "sim_numcon", "sim_numvar",
  "sim_primal_deg_iter", "sim_primal_hotstart", "sim_primal_hotstart_lu", "sim_primal_inf_iter", "sim_primal_iter", "sim_solve_dual",
  "sol_bas_prosta", "sol_bas_solsta", "sol_itg_prosta", "sol_itg_solsta", "sol_itr_prosta", "sol_itr_solsta",
  "sto_num_a_realloc"]

def iinfitemVals : List Int := [
  0, 1, 2, 3, 4, 5, 6, 7, 8, 9, 10, 11, 12, 13, 14, 15, 16, 17,
  18, 19, 20, 21, 22, 23, 24, 25, 26, 27, 28, 29, 30, 31, 32, 33, 34, 35,
  36, 37, 38, 39, 40, 41, 42, 43, 44, 45, 46, 47, 48, 49, 50, 51, 52, 53,
  54, 55, 56, 57, 58, 59, 60, 61, 62, 63, 64, 65, 66, 67, 68, 69, 70, 71,
  72, 73, 74, 75, 76, 77, 78]

def stakeyNames : List String := [
  "bas", "fix", "inf", "low", "supbas", "unk",
  "upr"]

def stakeyVals : List Int := [
  1, 5, 6, 3, 2, 0, 4]

def optimizertypeNames : List String := [
  "conic", "dual_simplex", "free", "free_simplex", "intpnt", "mixed_int",
  "primal_simplex"]

def optimizertypeVals : List Int := [
  0, 1, 2, 3, 4, 5, 6]

def presolvemodeNames : List String := [
  "free", "off", "on"]

def presolvemodeVals : List Int := [
  2, 0, 1]

def miocontsoltypeNames : List String := [
  "itg", "itg_rel", "none", "root"]

def miocontsoltypeVals : List Int := [
  2, 3, 0, 1]

def mosekEnumData : List (String × List String × List Int) := [
  ("scopr", scoprNames, scoprVals),
  ("solveform", solveformNames, solveformVals),
  ("problemitem", problemitemNames, problemitemVals),
  ("accmode", accmodeNames, accmodeVals),
  ("sensitivitytype", sensitivitytypeNames, sensitivitytypeVals),
  ("uplo", uploNames, uploVals),
  ("intpnthotstart", intpnthotstartNames, intpnthotstartVals),
  ("sparam", sparamNames, sparamVals),
  ("iparam", iparamNames, iparamVals),
  ("solsta", solstaNames, solstaVals),
  ("objsense", objsenseNames, objsenseVals),
  ("solitem", solitemNames, solitemVals),
  ("boundkey", boundkeyNames, boundkeyVals),
  ("basindtype", basindtypeNames, basindtypeVals),
  ("branchdir", branchdirNames, branchdirVals),
  ("liinfitem", liinfitemNames, liinfitemVals),
  ("simhotstart", simhotstartNames, simhotstartVals),
  ("callbackcode", callbackcodeNames, callbackcodeVals),
  ("symmattype", symmattypeNames, symmattypeVals),
  ("feature", featureNames, featureVals),
  ("mark", markNames, markVals),
  ("conetype", conetypeNames, conetypeVals),
  ("streamtype", streamtypeNames, streamtypeVals),
  ("iomode", iomodeNames, iomodeVals),
  ("simseltype", simseltypeNames, simseltypeVals),
  ("xmlwriteroutputtype", xmlwriteroutputtypeNames, xmlwriteroutputtypeVals),
  ("miomode", miomodeNames, miomodeVals),
  ("dinfitem", dinfitemNames, dinfitemVals),
  ("parametertype", parametertypeNames, parametertypeVals),
  ("rescodetype", rescodetypeNames, rescodetypeVals),
  ("prosta", prostaNames, prostaVals),
  ("scalingtype", scalingtypeNames, scalingtypeVals),
  ("rescode", rescodeNames, rescodeVals),
  ("mionodeseltype", mionodeseltypeNames, mionodeseltypeVals),
  ("transpose", transposeNames, transposeVals),
  ("onoffkey", onoffkeyNames, onoffkeyVals),
  ("simdegen", simdegenNames, simdegenVals),
  ("dataformat", dataformatNames, dataformatVals),
  ("orderingtype", orderingtypeNames, orderingtypeVals),
  ("problemtype", problemtypeNames, problemtypeVals),
  ("inftype", inftypeNames, inftypeVals),
  ("dparam", dparamNames, dparamVals),
  ("simdupvec", simdupvecNames, simdupvecVals),
  ("compresstype", compresstypeNames, compresstypeVals),
  ("nametype", nametypeNames, nametypeVals),
  ("mpsformat", mpsformatNames, mpsformatVals),
  ("variabletype", variabletypeNames, variabletypeVals),
  ("checkconvexitytype", checkconvexitytypeNames, checkconvexitytypeVals),
  ("language", languageNames, languageVals),
  ("startpointtype", startpointtypeNames, startpointtypeVals),
  ("soltype", soltypeNames, soltypeVals),
  ("scalingmethod", scalingmethodNames, scalingmethodVals),
  ("value", valueNames, valueVals),
  ("simreform", simreformNames, simreformVals),
  ("iinfitem", iinfitemNames, iinfitemVals),
  ("stakey", stakeyNames, stakeyVals),
  ("optimizertype", optimizertypeNames, optimizertypeVals),
  ("presolvemode", presolvemodeNames, presolvemodeVals),
  ("miocontsoltype", miocontsoltypeNames, miocontsoltypeVals)]

/- Concrete enum classes used by the operational models below. -/

def rescodeE : EnumClass := mkEnumClass rescodeNames rescodeVals

def callbackcodeE : EnumClass := mkEnumClass callbackcodeNames callbackcodeVals

def streamtypeE : EnumClass := mkEnumClass streamtypeNames streamtypeVals

def featureE : EnumClass := mkEnumClass featureNames featureVals

def boundkeyE : EnumClass := mkEnumClass boundkeyNames boundkeyVals

/- The argument contract layer: the `accepts(*argtlst)` decorator and the
   per-parameter converters it is instantiated with. -/

/-- `_accept_str(v)`: raises TypeAcceptError on a non-string. -/
def _accept_str : PyVal → Except PyExc PyVal
  | .str s => .ok (.str s)
  | _ => .error (.typeAcceptError "Expected a string argument")

/-- `_accept_any(v)`: passthrough. -/
def _accept_any : PyVal → Except PyExc PyVal :=
  fun v => .ok v

/-- `_accept_anyenum(e)`: the returned acceptor raises a plain TypeError
    (not a TypeAcceptError) when the value is not an instance of the
    enum class `e`. -/
def _accept_anyenum (cls : String) : PyVal → Except PyExc PyVal :=
  fun v =>
    match v with
    | .enumv c m =>
      if c = cls then .ok (.enumv c m)
      else .error (.typeError ("Expected an " ++ cls ++ " enum type"))
    | _ => .error (.typeError ("Expected an " ++ cls ++ " enum type"))

/-- Decimal digits to a number. -/
def digitsToNat (l : List Char) : Nat :=
  l.foldl (fun a c => a * 10 + (c.toNat - 48)) 0

/-- The decimal grammar accepted by Python `int(string)` (restricted to
    plain optionally-signed digit strings, which covers the modelled
    behaviours). -/
def pyParseInt (s : String) : Option Int :=
  match s.data with
  | [] => none
  | c :: ds =>
    if c = '-' then
      if ds ≠ [] ∧ ds.all Char.isDigit then some (-(digitsToNat ds : Int)) else none
    else
      if (c :: ds).all Char.isDigit then some ((digitsToNat (c :: ds) : Int)) else none

/-- `_make_int = int`: the Python `int()` constructor, whose failures are
    low-level ValueError / TypeError exceptions, not TypeAcceptError. -/
def _make_int : PyVal → Except PyExc PyVal
  | .int n => .ok (.int n)
  | .enumv _ m => .ok (.int m.value)
  | .str s =>
    match pyParseInt s with
    | some n => .ok (.int n)
    | none => .error (.valueError ("invalid literal for int() with base 10: " ++ s))
  | .noneV => .error (.typeError "int() argument must be a string, a bytes-like object or a number, not NoneType")

/-- The list comprehension `[ t(a) for (t,a) in zip(argtlst,args) ]`:
    converters applied in order, first exception wins. -/
def convertArgs : List ((PyVal → Except PyExc PyVal) × PyVal) → Except PyExc (List PyVal)
  | [] => .ok []
  | (t, a) :: rest =>
    match t a with
    | .error e => .error e
    | .ok v =>
      match convertArgs rest with
      | .error e => .error e
      | .ok vs => .ok (v :: vs)

/-- The wrapper function `accept(*args)` produced by the `accepts(*argtlst)`
    decorator: an arity check raising TypeError, then the converted call
    inside `try: ... except TypeAcceptError as e: raise TypeError(e)`. -/
def accepts (argtlst : List (PyVal → Except PyExc PyVal))
    (f : List PyVal → Except PyExc PyVal) (args : List PyVal) :
    Except PyExc PyVal :=
  if args.length ≠ argtlst.length then
    .error (.typeError ("Expected " ++ toString argtlst.length ++
      " argument(s) (" ++ toString args.length ++ " given)"))
  else
    match
      ((match convertArgs (argtlst.zip args) with
        | .error e => .error e
        | .ok conv => f conv) : Except PyExc PyVal) with
    | .error (.typeAcceptError m) => .error (.typeError m)
    | r => r

/- The buffer bridge.  A managed sequence is either a numpy ndarray
   (dtype, contiguity and writability flags plus element payload) or a
   plain Python sequence; element payloads are carried as integers. -/

inductive Dtype where
  | int32
  | float64
  | other
deriving DecidableEq, Repr

structure NDArray where
  dtype : Dtype
  contiguous : Bool
  writable : Bool
  data : List Int
deriving DecidableEq, Repr

inductive PySeq where
  | ndarray (a : NDArray)
  | pylist (l : List Int)
deriving DecidableEq, Repr

def seqLen : PySeq → Nat
  | .ndarray a => a.data.length
  | .pylist l => l.length

def seqData : PySeq → List Int
  | .ndarray a => a.data
  | .pylist l => l

/-- `numpy.array(x, numpy.int32)` element conversion: wrap into 32-bit
    two's complement. -/
def toInt32 (v : Int) : Int := (v + 2 ^ 31) % 2 ^ 32 - 2 ^ 31

/-- A call-scoped buffer binding: the NULL pointer for a `None`
    argument, a borrowed pointer aliasing the caller's own storage, or
    an owned temporary copy with the converted contents. -/
inductive Binding where
  | nullPtr
  | borrowed
  | copied (tmp : List Int)
deriving DecidableEq, Repr

/-- The int32 binding dispatch appearing in every int-array parameter:
    `None` binds NULL; an int32 contiguous ndarray binds its own storage
    with `_x_copyarray = False`; anything else materializes
    `numpy.array(x, numpy.int32)` with `_x_copyarray = True`. -/
def bindInt32 : Option PySeq → Binding
  | none => .nullPtr
  | some (.ndarray a) =>
    if a.dtype = .int32 ∧ a.contiguous then .borrowed
    else .copied (a.data.map toInt32)
  | some (.pylist l) => .copied (l.map toInt32)

/-- The float64 binding dispatch for double-array parameters. -/
def bindFloat64 : Option PySeq → Binding
  | none => .nullPtr
  | some (.ndarray a) =>
    if a.dtype = .float64 ∧ a.contiguous then .borrowed
    else .copied a.data
  | some (.pylist l) => .copied l

/-- The binding used for enum-valued arrays such as `bk_` in
    `Task.putboundlist`: `_bk_tmp = (ctypes.c_int32 * len(bk_))(*bk_)`,
    i.e. always a freshly allocated copy. -/
def bindEnumArr (s : PySeq) : Binding := .copied ((seqData s).map toInt32)

/-- Does the `isinstance(x_,numpy.ndarray) and not x_.flags.writeable`
    check fire? -/
def isNonWritableNdarray : PySeq → Bool
  | .ndarray a => !a.writable
  | .pylist _ => false

/- Native entry points, for call traces. -/

inductive NativeCall where
  | MSK_getnumcon
  | MSK_getnumvar
  | MSK_initbasissolve
  | MSK_putboundlist
  | MSK_optimizetrm
  | MSK_getlasterror64
  | MSK_getcodedesc
  | MSK_checkinlicense (code : Int)
  | MSK_deleteenv
  | MSK_deletetask
  | MSK_scdetach
  | MSK_scend
  | MSK_putcallbackfunc
  | MSK_linkfunctotaskstream (ws : Int) (attached : Bool)
deriving DecidableEq, Repr

/- The error translator. -/

/-- Oracle for the two `MSK_XX_getlasterror64` calls made by
    `Task.__getlasterror`: their statuses, the last error code written,
    and the fetched message. -/
structure LastErrOracle where
  res1 : Int
  res2 : Int
  lasterr : Int
  msg : String

/-- `Task.__getlasterror(self,res)`: query the message length, then
    fetch the message; on failure of either native call fall back to an
    empty message. -/
def Task_getlasterror (o : LastErrOracle) (res : Int) :
    (Int × String) × List NativeCall :=
  if o.res1 = 0 then
    if o.res2 = 0 then ((o.lasterr, o.msg), [.MSK_getlasterror64, .MSK_getlasterror64])
    else ((o.lasterr, ""), [.MSK_getlasterror64, .MSK_getlasterror64])
  else ((res, ""), [.MSK_getlasterror64])

/-- Oracle for one `MSK_XX_getcodedesc` call: its status, and the
    symbolic name and description it writes. -/
structure CodeDescOracle where
  res : Int
  symname : String
  desc : String

/-- `Env.getcodedesc(code_)` (the decorator `_accept_anyenum(rescode)`
    is satisfied here because the argument is always a rescode member):
    on status 0 return `(symname, desc)`; otherwise
    `raise Error(rescode(res),"")`. -/
def Env_getcodedesc (o : CodeDescOracle) (_code : EnumMember) :
    Except PyExc (String × String) × List NativeCall :=
  if o.res = 0 then (.ok (o.symname, o.desc), [.MSK_getcodedesc])
  else
    match enumNew rescodeE (.int o.res) with
    | .ok m => (.error (.mosekError m ""), [.MSK_getcodedesc])
    | .error e => (.error e, [.MSK_getcodedesc])

/-- The failure path shared by the Task operation wrappers:
    `result,msg = self.__getlasterror(res)` (whose result is unused)
    followed by `raise Error(rescode(res),Env.getcodedesc(rescode(res))[1])`. -/
def taskRaiseError (lo : LastErrOracle) (cd : CodeDescOracle) (res : Int) :
    PyExc × List NativeCall :=
  let r1 := Task_getlasterror lo res
  match enumNew rescodeE (.int res) with
  | .error e => (e, r1.2)
  | .ok m =>
    match Env_getcodedesc cd m with
    | (.ok sd, tr) => (.mosekError m sd.2, r1.2 ++ tr)
    | (.error e, tr) => (e, r1.2 ++ tr)

/-- Oracle for a wrapped getter: the native status and the scalar output
    value it writes, plus the oracles of the error path. -/
structure SimpleOracle where
  res : Int
  out : Int
  lasterr : LastErrOracle
  codedesc : CodeDescOracle

/-- `Task.getnumvar(self)`: call the native entry point; status 0
    extracts and returns the output, otherwise the error path runs. -/
def Task_getnumvar (o : SimpleOracle) : Except PyExc Int × List NativeCall :=
  if o.res = 0 then (.ok o.out, [.MSK_getnumvar])
  else
    let r := taskRaiseError o.lasterr o.codedesc o.res
    (.error r.1, .MSK_getnumvar :: r.2)

/-- `Task.getnumcon(self)`. -/
def Task_getnumcon (o : SimpleOracle) : Except PyExc Int × List NativeCall :=
  if o.res = 0 then (.ok o.out, [.MSK_getnumcon])
  else
    let r := taskRaiseError o.lasterr o.codedesc o.res
    (.error r.1, .MSK_getnumcon :: r.2)

/-- Oracle for `MSK_XX_optimizetrm`. -/
structure OptimizeOracle where
  res : Int
  trmcode : Int
  lasterr : LastErrOracle
  codedesc : CodeDescOracle

/-- `Task.optimize(self)`: status 0 returns `rescode(trmcode_.value)`,
    otherwise the error path runs. -/
def Task_optimize (o : OptimizeOracle) : Except PyExc EnumMember × List NativeCall :=
  if o.res = 0 then (enumNew rescodeE (.int o.trmcode), [.MSK_optimizetrm])
  else
    let r := taskRaiseError o.lasterr o.codedesc o.res
    (.error r.1, .MSK_optimizetrm :: r.2)

/- Array-taking operations. -/

/-- Oracle for `Task.initbasissolve`: the oracle of the `getnumcon`
    call its length check makes, the status of `MSK_XX_initbasissolve`,
    the contents the native call leaves in the passed buffer, and the
    error-path oracles. -/
structure InitBasisOracle where
  numcon : SimpleOracle
  res : Int
  outBuf : List Int → List Int
  lasterr : LastErrOracle
  codedesc : CodeDescOracle

/-- The part of `Task.initbasissolve` after the length check: writable
    check, binding, native call, error check, and the copy-back
    `basis_[:] = _basis_tmp_arr` performed only for an owned-temporary
    binding after a successful call.  The third result component is the
    final contents of the caller's sequence. -/
def initbasissolveCore (o : InitBasisOracle) (s : PySeq) (tr0 : List NativeCall) :
    Except PyExc Unit × List NativeCall × Option (List Int) :=
  if isNonWritableNdarray s then
    (.error (.valueError "Argument basis must be writable"), tr0, some (seqData s))
  else
    match bindInt32 (some s) with
    | .copied tmp =>
      let tmpAfter := o.outBuf tmp
      if o.res = 0 then
        (.ok (), tr0 ++ [.MSK_initbasissolve], some tmpAfter)
      else
        let r := taskRaiseError o.lasterr o.codedesc o.res
        (.error r.1, tr0 ++ .MSK_initbasissolve :: r.2, some (seqData s))
    | _ =>
      let after := o.outBuf (seqData s)
      if o.res = 0 then
        (.ok (), tr0 ++ [.MSK_initbasissolve], some after)
      else
        let r := taskRaiseError o.lasterr o.codedesc o.res
        (.error r.1, tr0 ++ .MSK_initbasissolve :: r.2, some after)

/-- `Task.initbasissolve(self,basis_)`: the guard
    `if basis_ is not None and len(basis_) != self.getnumcon()` raises
    ValueError before the native entry point is reached; `getnumcon` is
    only invoked when `basis_` is not None. -/
def Task_initbasissolve (o : InitBasisOracle) (basis : Option PySeq) :
    Except PyExc Unit × List NativeCall × Option (List Int) :=
  match basis with
  | some s =>
    match Task_getnumcon o.numcon with
    | (.error e, tr) => (.error e, tr, some (seqData s))
    | (.ok n, tr) =>
      if (seqLen s : Int) ≠ n then
        (.error (.valueError "Array argument basis is not long enough"), tr, some (seqData s))
      else initbasissolveCore o s tr
  | none =>
    if o.res = 0 then (.ok (), [.MSK_initbasissolve], none)
    else
      let r := taskRaiseError o.lasterr o.codedesc o.res
      (.error r.1, .MSK_initbasissolve :: r.2, none)

/-- `len(x)` on a possibly-None argument: `len(None)` raises a
    TypeError. -/
def pyLen : Option PySeq → Except PyExc Int
  | none => .error (.typeError "object of type NoneType has no len()")
  | some s => .ok (seqLen s)

structure PutBoundListOracle where
  res : Int
  lasterr : LastErrOracle
  codedesc : CodeDescOracle

/-- `Task.putboundlist(self,accmode_,sub_,bk_,bl_,bu_)`: `num_` is taken
    from `len(sub_)` and compared against the lengths of `bk_`, `bl_`
    and `bu_` in order, raising IndexError on the first mismatch; all of
    this happens before the native entry point is invoked.  The explicit
    `cannot be None` ValueError checks in the source are unreachable
    because `len(None)` already raised. -/
def Task_putboundlist (o : PutBoundListOracle) (sub bk bl bu : Option PySeq) :
    Except PyExc Unit × List NativeCall :=
  match pyLen sub with
  | .error e => (.error e, [])
  | .ok num =>
    match pyLen bk with
    | .error e => (.error e, [])
    | .ok nbk =>
      if num ≠ nbk then (.error (.indexError "Inconsistent length of array bk"), [])
      else
        match pyLen bl with
        | .error e => (.error e, [])
        | .ok nbl =>
          if num ≠ nbl then (.error (.indexError "Inconsistent length of array bl"), [])
          else
            match pyLen bu with
            | .error e => (.error e, [])
            | .ok nbu =>
              if num ≠ nbu then (.error (.indexError "Inconsistent length of array bu"), [])
              else
                let _sub := bindInt32 sub
                let _bk := match bk with
                  | some s => bindEnumArr s
                  | none => Binding.nullPtr
                let _bl := bindFloat64 bl
                let _bu := bindFloat64 bu
                if o.res = 0 then (.ok (), [.MSK_putboundlist])
                else
                  let r := taskRaiseError o.lasterr o.codedesc o.res
                  (.error r.1, .MSK_putboundlist :: r.2)

/- The callback trampolines. -/

/-- What a registered user callback does when invoked from the
    trampoline: it returns an int, returns some non-int value (for
    example `None`), or raises an exception. -/
inductive PyRet where
  | int (n : Int)
  | nonInt
  | raise
deriving DecidableEq, Repr

/-- `progress_proxy(nativep, handle, caller, dinfptr, iinfptr, liinfptr)`:
    `r = 0`; `caller = callbackcode(caller)`; run the info callback then
    the progress callback if registered, keeping the last returned `r`;
    coerce a non-int `r` to 0; any exception inside the body is caught
    and `-1` is returned to the native engine.  `info` and `prog` give
    the behaviour of the registered callbacks (`none` = slot empty). -/
def progress_proxy (caller : Int) (info prog : Option PyRet) : Int :=
  match enumNew callbackcodeE (.int caller) with
  | .error _ => -1
  | .ok _ =>
    match info with
    | some .raise => -1
    | _ =>
      let r1 : PyRet := info.getD (.int 0)
      match prog with
      | some .raise => -1
      | _ =>
        let r2 : PyRet := prog.getD r1
        match r2 with
        | .int n => n
        | _ => 0

/-- A stream callback: invoked on the decoded message, it either
    returns or raises. -/
def StreamCB : Type := String → Except PyExc Unit

/-- `stream_proxy(handle, msg, whichstream)`: look up the current
    callback for the channel; if one is registered invoke it inside
    `try: ... except: pass`, so the trampoline always completes
    normally. -/
def stream_proxy (func : Option StreamCB) (msg : String) : Except PyExc Unit :=
  match func with
  | none => .ok ()
  | some f =>
    match f msg with
    | .ok _ => .ok ()
    | .error _ => .ok ()

/- Callback registration state (per Task). -/

/-- The callback slots of a Task (`κ` is the identity of user
    callbacks), together with what the native engine currently holds:
    whether the progress trampoline `self.__progress_cb` has been
    installed via `MSK_XX_putcallbackfunc`, and which stream trampolines
    are linked via `MSK_XX_linkfunctotaskstream`. -/
structure TaskCallbacks (κ : Type) where
  progress_func : Option κ
  infocallback_func : Option κ
  stream_func : List (Option κ)
  native_progress_attached : Bool
  native_stream_attached : List Bool
deriving Repr

/-- The state established by `Task.__init__`. -/
def initTaskCallbacks (κ : Type) : TaskCallbacks κ :=
  ⟨none, none, [none, none, none, none], false, [false, false, false, false]⟩

/-- `Task.set_Progress(func)`.  On `func is None` only the slot is
    cleared: the `MSK_XX_putcallbackfunc(self.__nativep,None,None)`
    detach call is commented out in the source, so no native call is
    made and the trampoline stays installed. -/
def Task_set_Progress {κ : Type} (st : TaskCallbacks κ) (func : Option κ) :
    TaskCallbacks κ × List NativeCall :=
  match func with
  | none => ({ st with progress_func := none }, [])
  | some f =>
    ({ st with progress_func := some f, native_progress_attached := true },
     [.MSK_putcallbackfunc])

/-- `Task.set_InfoCallback(func)`: same shape as `set_Progress`. -/
def Task_set_InfoCallback {κ : Type} (st : TaskCallbacks κ) (func : Option κ) :
    TaskCallbacks κ × List NativeCall :=
  match func with
  | none => ({ st with infocallback_func := none }, [])
  | some f =>
    ({ st with infocallback_func := some f, native_progress_attached := true },
     [.MSK_putcallbackfunc])

/-- `Task.set_Stream(whichstream,func)`: requires `whichstream` to be a
    streamtype member, else TypeError; registering `None` clears the
    slot and links a NULL callback natively; registering a callback
    stores it and links the channel's trampoline. -/
def Task_set_Stream {κ : Type} (st : TaskCallbacks κ) (whichstream : PyVal)
    (func : Option κ) : Except PyExc (TaskCallbacks κ) × List NativeCall :=
  match whichstream with
  | .enumv c m =>
    if c = "streamtype" then
      match func with
      | none =>
        (.ok { st with
            stream_func := st.stream_func.set m.value.toNat none,
            native_stream_attached := st.native_stream_attached.set m.value.toNat false },
         [.MSK_linkfunctotaskstream m.value false])
      | some f =>
        (.ok { st with
            stream_func := st.stream_func.set m.value.toNat (some f),
            native_stream_attached := st.native_stream_attached.set m.value.toNat true },
         [.MSK_linkfunctotaskstream m.value true])
    else (.error (.typeError "Invalid stream"), [])
  | _ => (.error (.typeError "Invalid stream"), [])

/-- The user callbacks a native progress-channel event reaches: the
    engine invokes the installed trampoline (if it holds one), and the
    trampoline forwards to the currently stored info callback and
    progress callback, in that order. -/
def nativeProgressDispatch {κ : Type} (st : TaskCallbacks κ) : List κ :=
  if st.native_progress_attached then
    st.infocallback_func.toList ++ st.progress_func.toList
  else []

/-- The user callbacks a native stream event on channel `ws` reaches. -/
def nativeStreamDispatch {κ : Type} (st : TaskCallbacks κ) (ws : Nat) : List κ :=
  if st.native_stream_attached.getD ws false then
    (st.stream_func.getD ws none).toList
  else []

/- Handle lifecycle. -/

/-- The lifecycle-relevant state of an Env: `self.__nativep`, which is
    an opaque pointer while live and None once released. -/
structure EnvState where
  nativep : Option Nat
deriving DecidableEq, Repr

/-- Oracle for the `MSK_XX_checkinlicense` calls `Env.__del__` makes,
    keyed by the feature's integer code. -/
structure EnvDelOracle where
  checkinRes : Int → Int

/-- The loop `for f in feature.members(): self.checkinlicense(f)`.
    `Env.checkinlicense` raises `Error(rescode(res),"")` on a non-zero
    status, which aborts the loop. -/
def Env_checkin_loop (o : EnvDelOracle) : List EnumMember → Option PyExc × List NativeCall
  | [] => (none, [])
  | f :: rest =>
    if o.checkinRes f.value = 0 then
      let r := Env_checkin_loop o rest
      (r.1, .MSK_checkinlicense f.value :: r.2)
    else
      match enumNew rescodeE (.int (o.checkinRes f.value)) with
      | .ok m => (some (.mosekError m ""), [.MSK_checkinlicense f.value])
      | .error e => (some e, [.MSK_checkinlicense f.value])

/-- `Env.__del__`: guarded by `if self.__nativep is not None`; checks in
    the license features, calls `MSK_XX_deleteenv` and clears the
    pointer field.  An exception from `checkinlicense` propagates and
    skips both the destroy call and the clearing assignment. -/
def Env_del (o : EnvDelOracle) (st : EnvState) :
    (Option PyExc × EnvState) × List NativeCall :=
  match st.nativep with
  | none => ((none, ⟨none⟩), [])
  | some _ =>
    match Env_checkin_loop o featureE.members with
    | (some e, tr) => ((some e, st), tr)
    | (none, tr) => ((none, ⟨none⟩), tr ++ [.MSK_deleteenv])

/-- `Env.__exit__` delegates to `Env.__del__`. -/
def Env_exit (o : EnvDelOracle) (st : EnvState) :
    (Option PyExc × EnvState) × List NativeCall :=
  Env_del o st

/-- The lifecycle-relevant state of a Task: `self.__nativep` and the
    optional extension handle `self.__schandle`. -/
structure TaskState where
  nativep : Option Nat
  schandle : Option Nat
deriving DecidableEq, Repr

/-- `Task.removeSCeval`: tears down the extension handle, if any,
    before the task itself. -/
def Task_removeSCeval (st : TaskState) : TaskState × List NativeCall :=
  match st.schandle with
  | none => (st, [])
  | some _ => ({ st with schandle := none }, [.MSK_scdetach, .MSK_scend])

/-- `Task.__del__`: guarded by `if self.__nativep is not None`; runs
    `removeSCeval`, calls `MSK_XX_deletetask` (its status is ignored)
    and clears the pointer field. -/
def Task_del (st : TaskState) : TaskState × List NativeCall :=
  match st.nativep with
  | none => ({ st with nativep := none }, [])
  | some _ =>
    let r := Task_removeSCeval st
    ({ r.1 with nativep := none }, r.2 ++ [.MSK_deletetask])

/-- `Task.__exit__` delegates to `Task.__del__`. -/
def Task_exit (st : TaskState) : TaskState × List NativeCall :=
  Task_del st

/-- A wrapped function body that ignores its arguments and succeeds,
    used to exercise the `accepts` wrapper. -/
def constPyNone : List PyVal → Except PyExc PyVal := fun _ => .ok .noneV

/- Sample oracles and states used by the witness theorems. -/

def sampleLastErr : LastErrOracle := ⟨0, 0, 3102, "last error detail"⟩

def sampleCodeDesc : CodeDescOracle :=
  ⟨0, "MSK_RES_ERR_AD_INVALID_CODELIST", "The code list data was invalid."⟩

def sampleCodeDescFail : CodeDescOracle := ⟨3102, "", ""⟩

def sampleGetterOk : SimpleOracle := ⟨0, 2, sampleLastErr, sampleCodeDesc⟩

def sampleOptimizeOk : OptimizeOracle := ⟨0, 10000, sampleLastErr, sampleCodeDesc⟩

def sampleOptimizeFail : OptimizeOracle := ⟨3102, 0, sampleLastErr, sampleCodeDesc⟩

def sampleOptimizeFallback : OptimizeOracle := ⟨3102, 0, sampleLastErr, sampleCodeDescFail⟩

def sampleNumcon3 : SimpleOracle := ⟨0, 3, sampleLastErr, sampleCodeDesc⟩

def sampleInitBasis : InitBasisOracle :=
  ⟨sampleNumcon3, 0, (fun l => l.map (fun v => v + 1)), sampleLastErr, sampleCodeDesc⟩

def samplePutBoundList : PutBoundListOracle := ⟨0, sampleLastErr, sampleCodeDesc⟩

def sampleEnvDel : EnvDelOracle := ⟨fun _ => 0⟩

/-- Is an `Except` an error? -/
def exceptIsError {ε α : Type} : Except ε α → Bool
  | .error _ => true
  | .ok _ => false

theorem chainBltChk_tail : ∀ (a : Nat) (l : List Nat),
    chainBltChk (a :: l) = true → chainBltChk l = true := by
  intro a l h
  cases l with
  | nil => rfl
  | cons b t => exact (Bool.and_eq_true_iff.mp h).2

theorem chainBltChk_head_lt : ∀ (a : Nat) (l : List Nat),
    chainBltChk (a :: l) = true → ∀ y ∈ l, a < y := by
  intro a l
  induction l generalizing a with
  | nil => intro _ y hy; cases hy
  | cons b t ih =>
    intro h y hy
    have hab : a < b := of_decide_eq_true (Bool.and_eq_true_iff.mp h).1
    have hrest := (Bool.and_eq_true_iff.mp h).2
    cases hy with
    | head => exact hab
    | tail _ hyt => exact Nat.lt_trans hab (ih b hrest y hyt)

theorem chainBltChk_nodup : ∀ l : List Nat, chainBltChk l = true → l.Nodup := by
  intro l
  induction l with
  | nil => intro _; exact List.nodup_nil
  | cons a t ih =>
    intro h
    refine List.nodup_cons.mpr ⟨fun hmem => ?_, ih (chainBltChk_tail a t h)⟩
    exact absurd rfl (Nat.ne_of_lt (chainBltChk_head_lt a t h a hmem))

theorem sieveChk_sound : ∀ (l : List Nat) (acc : Nat), sieveChk l acc = true →
    l.Nodup ∧ ∀ v ∈ l, acc.testBit v = false := by
  intro l
  induction l with
  | nil => intro acc _; exact ⟨List.nodup_nil, fun v hv => absurd hv (List.not_mem_nil v)⟩
  | cons a t ih =>
    intro acc h
    have h1 : acc.testBit a = false := by
      simpa using (Bool.and_eq_true_iff.mp h).1
    have h2 := ih (acc ||| (1 <<< a)) (Bool.and_eq_true_iff.mp h).2
    have hmem : a ∉ t := by
      intro hmem
      have := h2.2 a hmem
      rw [Nat.testBit_or] at this
      have hbit : (1 <<< a).testBit a = true := by
        rw [Nat.one_shiftLeft]
        exact Nat.testBit_two_pow_self
      simp [hbit] at this
    refine ⟨List.nodup_cons.mpr ⟨hmem, h2.1⟩, fun v hv => ?_⟩
    cases hv with
    | head => exact h1
    | tail _ hvt =>
      have := h2.2 v hvt
      rw [Nat.testBit_or] at this
      exact (Bool.or_eq_false_iff.mp this).1

theorem dictFind_eq_none {α β : Type} [DecidableEq α] (d : List (α × β)) (k : α)
    (h : ∀ p ∈ d, p.1 ≠ k) : dictFind d k = none := by
  induction d with
  | nil => rfl
  | cons p t ih =>
    have ht : dictFind t k = none := ih (fun q hq => h q (List.mem_cons_of_mem p hq))
    simp only [dictFind, ht]
    simp [h p (List.mem_cons_self p t)]

theorem dictFind_map_self {α β : Type} [DecidableEq β] (f : α → β)
    (items : List α) (hN : (items.map f).Nodup) (m : α) (hm : m ∈ items) :
    dictFind (items.map (fun x => (f x, x))) (f m) = some m := by
  induction items with
  | nil => cases hm
  | cons x t ih =>
    rw [List.map_cons] at hN
    have hN2 := (List.nodup_cons.mp hN).2
    rcases List.mem_cons.mp hm with rfl | hmt
    · have hnmem : f m ∉ t.map f := (List.nodup_cons.mp hN).1
      have ht : dictFind (t.map (fun x => (f x, x))) (f m) = none := by
        refine dictFind_eq_none _ _ (fun p hp => ?_)
        obtain ⟨y, hy, rfl⟩ := List.mem_map.mp hp
        exact fun hEq => hnmem (hEq ▸ List.mem_map_of_mem f hy)
      simp [dictFind, ht]
    · simp [dictFind, ih hN2 hmt]

theorem dictFind_map_none {α β : Type} [DecidableEq β] (f : α → β)
    (items : List α) (k : β) (hk : k ∉ items.map f) :
    dictFind (items.map (fun x => (f x, x))) k = none := by
  refine dictFind_eq_none _ _ (fun p hp => ?_)
  obtain ⟨y, hy, rfl⟩ := List.mem_map.mp hp
  exact fun hEq => hk (hEq ▸ List.mem_map_of_mem f hy)

theorem takeWhile_all {α : Type} (p : α → Bool) (l : List α)
    (h : ∀ a ∈ l, p a = true) : l.takeWhile p = l := by
  induction l with
  | nil => rfl
  | cons x t ih =>
    have hx := h x (List.mem_cons_self x t)
    have ht := ih (fun a ha => h a (List.mem_cons_of_mem x ha))
    simp [List.takeWhile_cons, hx, ht]

theorem lastDotComponent_eq_self (s : String)
    (h : ∀ c ∈ s.data, c ≠ '.') : lastDotComponent s = s := by
  unfold lastDotComponent
  have h2 : ∀ c ∈ s.data.reverse, (c != '.') = true := by
    intro c hc
    simpa using h c (List.mem_reverse.mp hc)
  rw [takeWhile_all _ _ h2, List.reverse_reverse]

theorem enumChk_parts (names : List String) (values : List Int)
    (h : enumChk names values = true) :
    (∀ n ∈ names, enumnamere n = true) ∧
    (∀ n ∈ names, ∀ c ∈ n.data, c ≠ '.') ∧
    values.length = names.length ∧
    names.Nodup ∧ values.Nodup := by
  unfold enumChk at h
  simp only [Bool.and_eq_true_iff] at h
  obtain ⟨⟨⟨⟨h1, h2⟩, h3⟩, h4⟩, h5⟩ := h
  refine ⟨fun n hn => List.all_eq_true.mp h1 n hn, ?_, ?_, ?_, ?_⟩
  · intro n hn c hc
    have := List.all_eq_true.mp (List.all_eq_true.mp h2 n hn) c hc
    simpa using this
  · simpa using h3
  · exact (chainBltChk_nodup _ h4).of_map strKeyPad
  · exact ((sieveChk_sound _ 0 h5).1).of_map Int.toNat

theorem mkEnumClass_members_name (names : List String) (values : List Int)
    (h : values.length = names.length) :
    (mkEnumClass names values).members.map EnumMember.name = names := by
  unfold mkEnumClass
  rw [List.map_map]
  have : (EnumMember.name ∘ fun p : String × Int => EnumMember.mk p.1 p.2) = Prod.fst := by
    funext p; rfl
  rw [this, List.map_fst_zip]
  exact Nat.le_of_eq h.symm

theorem mkEnumClass_members_value (names : List String) (values : List Int)
    (h : values.length = names.length) :
    (mkEnumClass names values).members.map EnumMember.value = values := by
  unfold mkEnumClass
  rw [List.map_map]
  have : (EnumMember.value ∘ fun p : String × Int => EnumMember.mk p.1 p.2) = Prod.snd := by
    funext p; rfl
  rw [this, List.map_snd_zip]
  exact Nat.le_of_eq h

theorem pyEnum_ok (names : List String) (values : List Int)
    (h : enumChk names values = true) :
    pyEnum names (some values) = .ok (mkEnumClass names values) := by
  obtain ⟨h1, _, h3, _, _⟩ := enumChk_parts names values h
  unfold pyEnum initializeEnum
  have hfind : names.find? (fun n => ¬ enumnamere n) = none := by
    rw [List.find?_eq_none]
    intro n hn
    simp [h1 n hn]
  rw [hfind]
  simp [h3]

theorem mkEnum_lookup (names : List String) (values : List Int)
    (h : enumChk names values = true) :
    ∀ m ∈ (mkEnumClass names values).members,
      lookup_by_name (mkEnumClass names values) m.name = .ok m ∧
      lookup_by_value (mkEnumClass names values) m.value = .ok m := by
  obtain ⟨h1, h2, h3, h4, h5⟩ := enumChk_parts names values h
  intro m hm
  have hnameN : ((mkEnumClass names values).members.map EnumMember.name).Nodup := by
    rw [mkEnumClass_members_name names values h3]; exact h4
  have hvalN : ((mkEnumClass names values).members.map EnumMember.value).Nodup := by
    rw [mkEnumClass_members_value names values h3]; exact h5
  have hmnames : m.name ∈ names := by
    rw [← mkEnumClass_members_name names values h3]
    exact List.mem_map_of_mem EnumMember.name hm
  have hdot : lastDotComponent m.name = m.name :=
    lastDotComponent_eq_self m.name (h2 m.name hmnames)
  constructor
  · have hfind : dictFind (mkEnumClass names values).namedict m.name = some m := by
      show dictFind ((mkEnumClass names values).members.map (fun x => (x.name, x))) m.name = some m
      exact dictFind_map_self EnumMember.name _ hnameN m hm
    simp [lookup_by_name, enumNew, hdot, hfind]
  · have hfind : dictFind (mkEnumClass names values).valdict m.value = some m := by
      show dictFind ((mkEnumClass names values).members.map (fun x => (x.value, x))) m.value = some m
      exact dictFind_map_self EnumMember.value _ hvalN m hm
    simp [lookup_by_value, enumNew, hfind]

theorem mkEnum_domain_name (names : List String) (values : List Int)
    (h : enumChk names values = true) (s : String)
    (hs : lastDotComponent s ∉ names) :
    lookup_by_name (mkEnumClass names values) s = .error .keyError := by
  obtain ⟨_, _, h3, _, _⟩ := enumChk_parts names values h
  have hfind : dictFind (mkEnumClass names values).namedict (lastDotComponent s) = none := by
    show dictFind ((mkEnumClass names values).members.map (fun x => (x.name, x)))
      (lastDotComponent s) = none
    refine dictFind_map_none EnumMember.name _ _ ?_
    rw [mkEnumClass_members_name names values h3]
    exact hs
  simp [lookup_by_name, enumNew, hfind]

theorem mkEnum_domain_value (names : List String) (values : List Int)
    (h : enumChk names values = true) (v : Int) (hv : v ∉ values) :
    lookup_by_value (mkEnumClass names values) v = .error .keyError := by
  obtain ⟨_, _, h3, _, _⟩ := enumChk_parts names values h
  have hfind : dictFind (mkEnumClass names values).valdict v = none := by
    show dictFind ((mkEnumClass names values).members.map (fun x => (x.value, x))) v = none
    refine dictFind_map_none EnumMember.value _ _ ?_
    rw [mkEnumClass_members_value names values h3]
    exact hv
  simp [lookup_by_value, enumNew, hfind]

set_option maxRecDepth 100000 in
theorem mosekEnums_chk :
    mosekEnumData.all (fun d => enumChk d.2.1 d.2.2) = true := by decide

/- Additional helper lemmas. -/

theorem dictFind_map_key {α β : Type} [DecidableEq β] (f : α → β)
    (items : List α) (k : β) (m : α)
    (h : dictFind (items.map (fun x => (f x, x))) k = some m) : f m = k := by
  induction items with
  | nil => cases h
  | cons x t ih =>
    simp only [List.map_cons, dictFind] at h
    cases hf : dictFind (t.map fun x => (f x, x)) k with
    | some v =>
      rw [hf] at h
      cases h
      exact ih hf
    | none =>
      rw [hf] at h
      by_cases hx : f x = k
      · simp only [hx, if_pos] at h
        cases h
        exact hx
      · simp [hx] at h

theorem getD_set_false : ∀ (l : List Bool) (n : Nat),
    (l.set n false).getD n false = false := by
  intro l
  induction l with
  | nil => intro n; rfl
  | cons a t ih =>
    intro n
    cases n with
    | zero => rfl
    | succ k => simpa [List.getD] using ih k

/- Claim theorems. -/

/-- C2 counterexample: `EnumBase._initialize` performs no duplicate check,
    so constructing an enum with a repeated member name (or a repeated
    value) succeeds and registers members, contradicting the claim that
    such a construction always raises and defines no members. -/
theorem claim_C2_counterexample :
    (initializeEnum ["a", "a"] (some [0, 1])).1 =
      .ok (mkEnumClass ["a", "a"] [0, 1]) ∧
    (initializeEnum ["a", "b"] (some [0, 0])).1 =
      .ok (mkEnumClass ["a", "b"] [0, 0]) ∧
    (initializeEnum ["a", "a"] (some [0, 1])).2 ≠ [] := by decide

/-- C2 (amended): enum construction via `EnumBase._initialize` fails
    exactly when some member name fails the strict identifier pattern or
    when explicit values are given whose length differs from the name
    list; in every failing case no member is registered (the
    `setattr` trace is empty).  Duplicate names or values do not cause a
    failure (later registrations shadow earlier ones). -/
theorem claim_C2 (names : List String) (values : Option (List Int)) :
    (exceptIsError (initializeEnum names values).1 = true ↔
      (∃ n ∈ names, enumnamere n = false) ∨
      (∃ vs, values = some vs ∧ vs.length ≠ names.length)) ∧
    (exceptIsError (initializeEnum names values).1 = true →
      (initializeEnum names values).2 = []) := by
  cases hfind : names.find? (fun n => ¬ enumnamere n) with
  | some n =>
    have hmem : n ∈ names := List.mem_of_find?_eq_some hfind
    have hbad : enumnamere n = false := by simpa using List.find?_some hfind
    have hres : initializeEnum names values =
        (Except.error ("Invalid enum item name " ++ n), []) := by
      unfold initializeEnum
      rw [hfind]
    rw [hres]
    exact ⟨⟨fun _ => Or.inl ⟨n, hmem, hbad⟩, fun _ => rfl⟩, fun _ => rfl⟩
  | none =>
    have hnobad : ¬ ∃ n ∈ names, enumnamere n = false := by
      rintro ⟨n, hn, hbad⟩
      have := List.find?_eq_none.mp hfind n hn
      rw [hbad] at this
      simp at this
    cases values with
    | none =>
      have hres : initializeEnum names none =
          (Except.ok (mkEnumClass names ((List.range names.length).map Int.ofNat)),
           (mkEnumClass names ((List.range names.length).map Int.ofNat)).members.map
             (fun m => (m.name, m))) := by
        unfold initializeEnum
        rw [hfind]
        simp
      rw [hres]
      refine ⟨⟨fun h => ?_, fun h => ?_⟩, fun h => ?_⟩
      · exact absurd h (by simp [exceptIsError])
      · rcases h with hbad | ⟨vs, hvs, _⟩
        · exact absurd hbad hnobad
        · cases hvs
      · exact absurd h (by simp [exceptIsError])
    | some vs =>
      by_cases hlen : vs.length = names.length
      · have hres : initializeEnum names (some vs) =
            (Except.ok (mkEnumClass names vs),
             (mkEnumClass names vs).members.map (fun m => (m.name, m))) := by
          unfold initializeEnum
          rw [hfind]
          simp [hlen]
        rw [hres]
        refine ⟨⟨fun h => ?_, fun h => ?_⟩, fun h => ?_⟩
        · exact absurd h (by simp [exceptIsError])
        · rcases h with hbad | ⟨vs2, hvs2, hne⟩
          · exact absurd hbad hnobad
          · cases hvs2
            exact absurd hlen hne
        · exact absurd h (by simp [exceptIsError])
      · have hres : initializeEnum names (some vs) =
            (Except.error "Lengths of names and values do not match", []) := by
          unfold initializeEnum
          rw [hfind]
          simp [hlen]
        rw [hres]
        exact ⟨⟨fun _ => Or.inr ⟨vs, rfl, hlen⟩, fun _ => rfl⟩, fun _ => rfl⟩


/-- C2 witness: the amended failure condition evaluated at a concrete
    length mismatch, with an empty registration trace. -/
theorem claim_C2_witness :
    exceptIsError (initializeEnum ["a"] (some [0, 1])).1 = true ∧
    (initializeEnum ["a"] (some [0, 1])).2 = [] :=
  ⟨by decide, (claim_C2 ["a"] (some [0, 1])).2 (by decide)⟩

/-- C9: for every enumeration declared in the module, construction
    succeeds and name/value lookups are mutually inverse on the declared
    members: `lookup_by_value (lookup_by_name n).value = lookup_by_name n`
    for every declared name and symmetrically for every declared value;
    a name whose last dot-component is undeclared, or an undeclared
    value, fails with a KeyError domain error instead of returning a
    default. -/
theorem claim_C9 :
    ∀ d ∈ mosekEnumData, ∃ e : EnumClass,
      pyEnum d.2.1 (some d.2.2) = .ok e ∧
      (∀ m ∈ e.members,
        lookup_by_name e m.name = .ok m ∧ lookup_by_value e m.value = .ok m) ∧
      (∀ n ∈ e.members.map EnumMember.name, ∃ m,
        lookup_by_name e n = .ok m ∧
        lookup_by_value e m.value = lookup_by_name e n) ∧
      (∀ v ∈ e.members.map EnumMember.value, ∃ m,
        lookup_by_value e v = .ok m ∧
        lookup_by_name e m.name = lookup_by_value e v) ∧
      (∀ s : String, lastDotComponent s ∉ e.members.map EnumMember.name →
        lookup_by_name e s = .error .keyError) ∧
      (∀ v : Int, v ∉ e.members.map EnumMember.value →
        lookup_by_value e v = .error .keyError) := by
  intro d hd
  have hchk : enumChk d.2.1 d.2.2 = true :=
    List.all_eq_true.mp mosekEnums_chk d hd
  have h3 := (enumChk_parts d.2.1 d.2.2 hchk).2.2.1
  refine ⟨mkEnumClass d.2.1 d.2.2, pyEnum_ok _ _ hchk, mkEnum_lookup _ _ hchk,
    ?_, ?_, ?_, ?_⟩
  · intro n hn
    obtain ⟨m, hm, rfl⟩ := List.mem_map.mp hn
    obtain ⟨h1, h2⟩ := mkEnum_lookup _ _ hchk m hm
    exact ⟨m, h1, by rw [h1, h2]⟩
  · intro v hv
    obtain ⟨m, hm, rfl⟩ := List.mem_map.mp hv
    obtain ⟨h1, h2⟩ := mkEnum_lookup _ _ hchk m hm
    exact ⟨m, h2, by rw [h1, h2]⟩
  · intro s hs
    refine mkEnum_domain_name _ _ hchk s ?_
    rw [← mkEnumClass_members_name d.2.1 d.2.2 h3]
    exact hs
  · intro v hv
    refine mkEnum_domain_value _ _ hchk v ?_
    rw [← mkEnumClass_members_value d.2.1 d.2.2 h3]
    exact hv

/-- C9 witness: the round-trip and domain-error properties instantiated
    at the `scopr` enumeration. -/
theorem claim_C9_witness : ∃ e : EnumClass,
    pyEnum scoprNames (some scoprVals) = .ok e ∧
    (∀ m ∈ e.members,
      lookup_by_name e m.name = .ok m ∧ lookup_by_value e m.value = .ok m) ∧
    (∀ n ∈ e.members.map EnumMember.name, ∃ m,
      lookup_by_name e n = .ok m ∧
      lookup_by_value e m.value = lookup_by_name e n) ∧
    (∀ v ∈ e.members.map EnumMember.value, ∃ m,
      lookup_by_value e v = .ok m ∧
      lookup_by_name e m.name = lookup_by_value e v) ∧
    (∀ s : String, lastDotComponent s ∉ e.members.map EnumMember.name →
      lookup_by_name e s = .error .keyError) ∧
    (∀ v : Int, v ∉ e.members.map EnumMember.value →
      lookup_by_value e v = .error .keyError) :=
  claim_C9 ("scopr", scoprNames, scoprVals) (List.mem_cons_self _ _)

/-- C3 counterexample: the `accepts` wrapper raises the same
    TypeError("Expected a string argument") whichever parameter position
    the failing argument occupies, so the raised error does not name the
    offending parameter; and a converter failure that is not a
    TypeAcceptError (here `int('abc')`) leaks to the caller as the
    low-level ValueError instead of a classified error. -/
theorem claim_C3_counterexample :
    accepts [_accept_str, _accept_str] constPyNone [.int 7, .str "ok"] =
      .error (.typeError "Expected a string argument") ∧
    accepts [_accept_str, _accept_str] constPyNone [.str "ok", .int 7] =
      .error (.typeError "Expected a string argument") ∧
    accepts [_make_int] constPyNone [.str "abc"] =
      .error (.valueError "invalid literal for int() with base 10: abc") := by
  decide

/-- C3 (amended): when a per-parameter converter fails with the
    library's TypeAcceptError, the `accepts` wrapper raises a single
    TypeError carrying the converter's message (which carries no
    information about which parameter failed); when a converter fails
    with any other exception, that low-level exception propagates to the
    caller unchanged. -/
theorem claim_C3 (argtlst : List (PyVal → Except PyExc PyVal))
    (f : List PyVal → Except PyExc PyVal) (args : List PyVal)
    (hlen : args.length = argtlst.length) :
    (∀ m, convertArgs (argtlst.zip args) = .error (.typeAcceptError m) →
      accepts argtlst f args = .error (.typeError m)) ∧
    (∀ e, (∀ m, e ≠ .typeAcceptError m) →
      convertArgs (argtlst.zip args) = .error e →
      accepts argtlst f args = .error e) := by
  constructor
  · intro m hconv
    unfold accepts
    rw [if_neg (by simp [hlen]), hconv]
  · intro e hnot hconv
    unfold accepts
    rw [if_neg (by simp [hlen]), hconv]
    cases e with
    | typeAcceptError m => exact absurd rfl (hnot m)
    | typeError m => rfl
    | valueError m => rfl
    | indexError m => rfl
    | keyError => rfl
    | mosekError m s => rfl

/-- C3 witness: the amended behaviour evaluated at concrete calls. -/
theorem claim_C3_witness :
    accepts [_accept_str, _accept_str] constPyNone [.int 7, .str "ok"] =
      .error (.typeError "Expected a string argument") ∧
    accepts [_make_int] constPyNone [.str "abc"] =
      .error (.valueError "invalid literal for int() with base 10: abc") :=
  ⟨(claim_C3 [_accept_str, _accept_str] constPyNone [.int 7, .str "ok"]
      (by decide)).1 "Expected a string argument" (by decide),
   (claim_C3 [_make_int] constPyNone [.str "abc"] (by decide)).2
      (.valueError "invalid literal for int() with base 10: abc")
      (by intro m h; cases h) (by decide)⟩

set_option maxRecDepth 100000 in
/-- C1: every wrapped native operation (here `Task.optimize` and
    `Task.getnumvar`) inspects the native status immediately: status 0
    extracts and returns the declared outputs; a non-zero status raises
    `Error` whose carried code is `rescode(res)` — numerically equal to
    the status the native call returned — and whose message is the
    description produced by the secondary fetch-description call
    `Env.getcodedesc`; if that secondary native call itself fails, the
    raised error carries an empty message. -/
theorem claim_C1 :
    (∀ o : OptimizeOracle, o.res = 0 →
      ∀ m, dictFind rescodeE.valdict o.trmcode = some m →
        (Task_optimize o).1 = .ok m) ∧
    (∀ o : SimpleOracle, o.res = 0 → (Task_getnumvar o).1 = .ok o.out) ∧
    (∀ o : OptimizeOracle, o.res ≠ 0 → o.codedesc.res = 0 →
      ∀ m, dictFind rescodeE.valdict o.res = some m →
        (Task_optimize o).1 = .error (.mosekError m o.codedesc.desc) ∧
        m.value = o.res) ∧
    (∀ o : SimpleOracle, o.res ≠ 0 → o.codedesc.res = 0 →
      ∀ m, dictFind rescodeE.valdict o.res = some m →
        (Task_getnumvar o).1 = .error (.mosekError m o.codedesc.desc) ∧
        m.value = o.res) ∧
    (∀ o : OptimizeOracle, o.res ≠ 0 → o.codedesc.res ≠ 0 →
      ∀ m m2, dictFind rescodeE.valdict o.res = some m →
        dictFind rescodeE.valdict o.codedesc.res = some m2 →
        (Task_optimize o).1 = .error (.mosekError m2 "")) := by
  refine ⟨?_, ?_, ?_, ?_, ?_⟩
  · intro o h0 m hm
    have hen : enumNew rescodeE (.int o.trmcode) = .ok m := by
      show (match dictFind rescodeE.valdict o.trmcode with
            | some m => Except.ok m
            | none => Except.error PyExc.keyError) = .ok m
      rw [hm]
    unfold Task_optimize
    rw [if_pos h0, hen]
  · intro o h0
    unfold Task_getnumvar
    rw [if_pos h0]
  · intro o hres hcd m hm
    refine ⟨?_, dictFind_map_key EnumMember.value rescodeE.members o.res m hm⟩
    have hen : enumNew rescodeE (.int o.res) = .ok m := by
      show (match dictFind rescodeE.valdict o.res with
            | some m => Except.ok m
            | none => Except.error PyExc.keyError) = .ok m
      rw [hm]
    have hgc : Env_getcodedesc o.codedesc m =
        (.ok (o.codedesc.symname, o.codedesc.desc), [.MSK_getcodedesc]) := by
      unfold Env_getcodedesc
      rw [if_pos hcd]
    unfold Task_optimize
    rw [if_neg hres]
    unfold taskRaiseError
    rw [hen]
    simp only [hgc]
  · intro o hres hcd m hm
    refine ⟨?_, dictFind_map_key EnumMember.value rescodeE.members o.res m hm⟩
    have hen : enumNew rescodeE (.int o.res) = .ok m := by
      show (match dictFind rescodeE.valdict o.res with
            | some m => Except.ok m
            | none => Except.error PyExc.keyError) = .ok m
      rw [hm]
    have hgc : Env_getcodedesc o.codedesc m =
        (.ok (o.codedesc.symname, o.codedesc.desc), [.MSK_getcodedesc]) := by
      unfold Env_getcodedesc
      rw [if_pos hcd]
    unfold Task_getnumvar
    rw [if_neg hres]
    unfold taskRaiseError
    rw [hen]
    simp only [hgc]
  · intro o hres hcd m m2 hm hm2
    have hen : enumNew rescodeE (.int o.res) = .ok m := by
      show (match dictFind rescodeE.valdict o.res with
            | some m => Except.ok m
            | none => Except.error PyExc.keyError) = .ok m
      rw [hm]
    have hen2 : enumNew rescodeE (.int o.codedesc.res) = .ok m2 := by
      show (match dictFind rescodeE.valdict o.codedesc.res with
            | some m => Except.ok m
            | none => Except.error PyExc.keyError) = .ok m2
      rw [hm2]
    have hgc : Env_getcodedesc o.codedesc m =
        (.error (.mosekError m2 ""), [.MSK_getcodedesc]) := by
      unfold Env_getcodedesc
      rw [if_neg hcd, hen2]
    unfold Task_optimize
    rw [if_neg hres]
    unfold taskRaiseError
    rw [hen]
    simp only [hgc]

set_option maxRecDepth 100000 in
/-- C1 witness: the status handling evaluated at concrete oracles. -/
theorem claim_C1_witness :
    (Task_optimize sampleOptimizeOk).1 = .ok ⟨"trm_max_iterations", 10000⟩ ∧
    (Task_getnumvar sampleGetterOk).1 = .ok 2 ∧
    (Task_optimize sampleOptimizeFail).1 =
      .error (.mosekError ⟨"err_ad_invalid_codelist", 3102⟩
        "The code list data was invalid.") ∧
    (Task_optimize sampleOptimizeFallback).1 =
      .error (.mosekError ⟨"err_ad_invalid_codelist", 3102⟩ "") :=
  ⟨claim_C1.1 sampleOptimizeOk (by decide) ⟨"trm_max_iterations", 10000⟩ (by decide),
   claim_C1.2.1 sampleGetterOk (by decide),
   (claim_C1.2.2.1 sampleOptimizeFail (by decide) (by decide)
     ⟨"err_ad_invalid_codelist", 3102⟩ (by decide)).1,
   claim_C1.2.2.2.2 sampleOptimizeFallback (by decide) (by decide)
     ⟨"err_ad_invalid_codelist", 3102⟩ ⟨"err_ad_invalid_codelist", 3102⟩
     (by decide) (by decide)⟩

/-- C5: length checks run before the operation's native entry point is
    invoked.  For `Task.initbasissolve`, an array whose length differs
    from `getnumcon()` raises ValueError and `MSK_XX_initbasissolve`
    never appears in the native-call trace; for `Task.putboundlist`,
    arrays of inconsistent lengths raise IndexError with an empty
    native-call trace (no native call at all). -/
theorem claim_C5 :
    (∀ (o : InitBasisOracle) (s : PySeq), o.numcon.res = 0 →
      (seqLen s : Int) ≠ o.numcon.out →
      (Task_initbasissolve o (some s)).1 =
        .error (.valueError "Array argument basis is not long enough") ∧
      NativeCall.MSK_initbasissolve ∉ (Task_initbasissolve o (some s)).2.1) ∧
    (∀ (po : PutBoundListOracle) (sub bk bl bu : PySeq),
      ¬ (seqLen bk = seqLen sub ∧ seqLen bl = seqLen sub ∧ seqLen bu = seqLen sub) →
      (∃ msg, (Task_putboundlist po (some sub) (some bk) (some bl) (some bu)).1 =
        .error (.indexError msg)) ∧
      (Task_putboundlist po (some sub) (some bk) (some bl) (some bu)).2 = []) := by
  constructor
  · intro o s h0 hne
    have hg : Task_getnumcon o.numcon = (.ok o.numcon.out, [.MSK_getnumcon]) := by
      unfold Task_getnumcon
      rw [if_pos h0]
    constructor <;> simp [Task_initbasissolve, hg, hne]
  · intro po sub bk bl bu hne
    by_cases h1 : seqLen sub = seqLen bk
    · by_cases h2 : seqLen sub = seqLen bl
      · by_cases h3 : seqLen sub = seqLen bu
        · exact absurd ⟨h1.symm, h2.symm, h3.symm⟩ hne
        · have e2 : seqLen bk = seqLen bl := h1.symm.trans h2
          have e3 : ¬ (seqLen bk = seqLen bu) := fun h => h3 (h1.trans h)
          have e4 : ¬ (seqLen bl = seqLen bu) := fun h => h3 (h2.trans h)
          refine ⟨⟨"Inconsistent length of array bu", ?_⟩, ?_⟩ <;>
            simp [Task_putboundlist, pyLen, h1, e2, e3, e4]
      · have e2 : ¬ (seqLen bk = seqLen bl) := fun h => h2 (h1.trans h)
        refine ⟨⟨"Inconsistent length of array bl", ?_⟩, ?_⟩ <;>
          simp [Task_putboundlist, pyLen, h1, e2]
    · refine ⟨⟨"Inconsistent length of array bk", ?_⟩, ?_⟩ <;>
        simp [Task_putboundlist, pyLen, h1]

/-- C5 witness: the length checks evaluated on concrete mismatched
    arrays. -/
theorem claim_C5_witness :
    ((Task_initbasissolve sampleInitBasis (some (.pylist [5]))).1 =
      .error (.valueError "Array argument basis is not long enough") ∧
     NativeCall.MSK_initbasissolve ∉
       (Task_initbasissolve sampleInitBasis (some (.pylist [5]))).2.1) ∧
    ((∃ msg, (Task_putboundlist samplePutBoundList (some (.pylist [0, 1]))
        (some (.pylist [0])) (some (.pylist [0, 0])) (some (.pylist [0, 0]))).1 =
        .error (.indexError msg)) ∧
     (Task_putboundlist samplePutBoundList (some (.pylist [0, 1]))
        (some (.pylist [0])) (some (.pylist [0, 0])) (some (.pylist [0, 0]))).2 = []) :=
  ⟨claim_C5.1 sampleInitBasis (.pylist [5]) (by decide) (by decide),
   claim_C5.2 samplePutBoundList (.pylist [0, 1]) (.pylist [0])
     (.pylist [0, 0]) (.pylist [0, 0]) (by decide)⟩

/-- C6 counterexample: the claim fails for enum-valued array parameters.
    In `Task.putboundlist` the bound-key array `bk_` is marshalled by
    `(ctypes.c_int32 * len(bk_))(*bk_)`, a freshly allocated temporary,
    even when the supplied buffer is a numpy int32 contiguous array —
    the exact situation in which the claim promises an in-place,
    copy-free binding (as the int32 binder used for `sub_` indeed
    provides on the same array). -/
theorem claim_C6_counterexample :
    bindEnumArr (.ndarray ⟨.int32, true, true, [2, 0]⟩) = .copied [2, 0] ∧
    bindInt32 (some (.ndarray ⟨.int32, true, true, [2, 0]⟩)) = .borrowed := by
  decide

/-- C6 (amended): for numeric-dtype array parameters the binding is
    zero-copy (borrowed, aliasing the caller's storage) exactly when the
    buffer is a numpy array of the required dtype with contiguous
    layout, and otherwise an owned temporary with the converted elements
    is allocated; enum-valued array parameters are always marshalled
    through a temporary (never borrowed).  For the writable output array
    of `Task.initbasissolve`, after a successful native call the
    caller's sequence holds exactly the native-side output values in
    order: via copy-back for an owned-temporary binding, via aliasing
    for a borrowed one. -/
theorem claim_C6 :
    (∀ a : NDArray, bindInt32 (some (.ndarray a)) = .borrowed ↔
      (a.dtype = .int32 ∧ a.contiguous = true)) ∧
    (∀ a : NDArray, ¬ (a.dtype = .int32 ∧ a.contiguous = true) →
      bindInt32 (some (.ndarray a)) = .copied (a.data.map toInt32)) ∧
    (∀ l : List Int, bindInt32 (some (.pylist l)) = .copied (l.map toInt32)) ∧
    (∀ a : NDArray, bindFloat64 (some (.ndarray a)) = .borrowed ↔
      (a.dtype = .float64 ∧ a.contiguous = true)) ∧
    (∀ s : PySeq, bindEnumArr s ≠ .borrowed) ∧
    (∀ (o : InitBasisOracle) (s : PySeq) (tmp : List Int),
      o.numcon.res = 0 → (seqLen s : Int) = o.numcon.out →
      isNonWritableNdarray s = false → o.res = 0 →
      bindInt32 (some s) = .copied tmp →
      (Task_initbasissolve o (some s)).1 = .ok () ∧
      (Task_initbasissolve o (some s)).2.2 = some (o.outBuf tmp)) ∧
    (∀ (o : InitBasisOracle) (s : PySeq),
      o.numcon.res = 0 → (seqLen s : Int) = o.numcon.out →
      isNonWritableNdarray s = false → o.res = 0 →
      bindInt32 (some s) = .borrowed →
      (Task_initbasissolve o (some s)).1 = .ok () ∧
      (Task_initbasissolve o (some s)).2.2 = some (o.outBuf (seqData s))) := by
  refine ⟨?_, ?_, ?_, ?_, ?_, ?_, ?_⟩
  · intro a
    constructor
    · intro hb
      by_cases h : a.dtype = .int32 ∧ a.contiguous
      · exact h
      · simp [bindInt32, h] at hb
    · intro hc
      simp [bindInt32, hc.1, hc.2]
  · intro a h
    have h2 : ¬ (a.dtype = .int32 ∧ a.contiguous) := h
    simp [bindInt32, h2]
  · intro l
    rfl
  · intro a
    constructor
    · intro hb
      by_cases h : a.dtype = .float64 ∧ a.contiguous
      · exact h
      · simp [bindFloat64, h] at hb
    · intro hc
      simp [bindFloat64, hc.1, hc.2]
  · intro s
    cases s <;> simp [bindEnumArr]
  · intro o s tmp h0 hlen hw hres hbind
    have hg : Task_getnumcon o.numcon = (.ok o.numcon.out, [.MSK_getnumcon]) := by
      unfold Task_getnumcon
      rw [if_pos h0]
    constructor <;>
      simp [Task_initbasissolve, hg, hlen, initbasissolveCore, hw, hbind, hres]
  · intro o s h0 hlen hw hres hbind
    have hg : Task_getnumcon o.numcon = (.ok o.numcon.out, [.MSK_getnumcon]) := by
      unfold Task_getnumcon
      rw [if_pos h0]
    constructor <;>
      simp [Task_initbasissolve, hg, hlen, initbasissolveCore, hw, hbind, hres]

/-- C6 witness: the copy-back path of `Task.initbasissolve` evaluated on
    a plain Python list (owned-temporary binding). -/
theorem claim_C6_witness :
    (Task_initbasissolve sampleInitBasis (some (.pylist [1, 2, 3]))).1 = .ok () ∧
    (Task_initbasissolve sampleInitBasis (some (.pylist [1, 2, 3]))).2.2 =
      some (sampleInitBasis.outBuf ([1, 2, 3].map toInt32)) :=
  claim_C6.2.2.2.2.2.1 sampleInitBasis (.pylist [1, 2, 3]) ([1, 2, 3].map toInt32)
    (by decide) (by decide) (by decide) (by decide) (by decide)

/-- C7: for a live Env or Task handle, any two successive teardowns
    (explicit `__exit__`/close followed by `__del__` finalization, or
    two explicit releases) run the native destroy call exactly once:
    the first teardown clears the `__nativep` sentinel and performs
    `MSK_XX_deleteenv` / `MSK_XX_deletetask` once, and the second
    teardown sees the sentinel and is a no-op. -/
theorem claim_C7 :
    (∀ (o : EnvDelOracle) (p : Nat), o.checkinRes 1 = 0 → o.checkinRes 0 = 0 →
      (Env_exit o ⟨some p⟩).1.1 = none ∧
      (Env_exit o ⟨some p⟩).1.2 = ⟨none⟩ ∧
      (Env_exit o ⟨some p⟩).2.count .MSK_deleteenv = 1 ∧
      Env_del o (Env_exit o ⟨some p⟩).1.2 = ((none, ⟨none⟩), [])) ∧
    (∀ (p : Nat) (sc : Option Nat),
      (Task_exit ⟨some p, sc⟩).1 = ⟨none, none⟩ ∧
      (Task_exit ⟨some p, sc⟩).2.count .MSK_deletetask = 1 ∧
      Task_del (Task_exit ⟨some p, sc⟩).1 = (⟨none, none⟩, [])) := by
  constructor
  · intro o p h1 h0
    have hmem : featureE.members = [⟨"pton", 1⟩, ⟨"pts", 0⟩] := rfl
    have hloop : Env_checkin_loop o featureE.members =
        (none, [.MSK_checkinlicense 1, .MSK_checkinlicense 0]) := by
      rw [hmem]
      simp [Env_checkin_loop, h1, h0]
    have hdel : Env_del o ⟨some p⟩ =
        ((none, ⟨none⟩),
         [.MSK_checkinlicense 1, .MSK_checkinlicense 0, .MSK_deleteenv]) := by
      unfold Env_del
      rw [hloop]
      rfl
    refine ⟨?_, ?_, ?_, ?_⟩
    · show (Env_del o ⟨some p⟩).1.1 = none
      rw [hdel]
    · show (Env_del o ⟨some p⟩).1.2 = ⟨none⟩
      rw [hdel]
    · show (Env_del o ⟨some p⟩).2.count .MSK_deleteenv = 1
      rw [hdel]
      rfl
    · show Env_del o (Env_del o ⟨some p⟩).1.2 = ((none, ⟨none⟩), [])
      rw [hdel]
      rfl
  · intro p sc
    cases sc with
    | none => exact ⟨rfl, rfl, rfl⟩
    | some h => exact ⟨rfl, rfl, rfl⟩

/-- C7 witness: double teardown evaluated on concrete handles. -/
theorem claim_C7_witness :
    ((Env_exit sampleEnvDel ⟨some 11⟩).1.1 = none ∧
     (Env_exit sampleEnvDel ⟨some 11⟩).1.2 = ⟨none⟩ ∧
     (Env_exit sampleEnvDel ⟨some 11⟩).2.count .MSK_deleteenv = 1 ∧
     Env_del sampleEnvDel (Env_exit sampleEnvDel ⟨some 11⟩).1.2 =
       ((none, ⟨none⟩), [])) ∧
    ((Task_exit ⟨some 12, some 5⟩).1 = ⟨none, none⟩ ∧
     (Task_exit ⟨some 12, some 5⟩).2.count .MSK_deletetask = 1 ∧
     Task_del (Task_exit ⟨some 12, some 5⟩).1 = (⟨none, none⟩, [])) :=
  ⟨claim_C7.1 sampleEnvDel 11 (by decide) (by decide),
   claim_C7.2 12 (some 5)⟩

/-- C4 counterexample: after registering a progress callback and then
    registering None, no native call is made during the detach (the
    `MSK_XX_putcallbackfunc(self.__nativep,None,None)` line is commented
    out in `Task.set_Progress`), and the engine still holds the
    previously installed trampoline — contradicting the claimed
    guarantee that before `set_Progress(None)` returns the engine no
    longer references the removed installation.  The cleared slot does
    keep the old callback from being invoked. -/
theorem claim_C4_counterexample :
    (Task_set_Progress (Task_set_Progress (initTaskCallbacks Nat) (some 7)).1 none).2
      = [] ∧
    (Task_set_Progress (Task_set_Progress (initTaskCallbacks Nat) (some 7)).1
      none).1.native_progress_attached = true ∧
    nativeProgressDispatch
      (Task_set_Progress (Task_set_Progress (initTaskCallbacks Nat) (some 7)).1
        none).1 = [] :=
  ⟨rfl, rfl, rfl⟩

/-- C4 (amended): registering None always clears the channel's slot, so
    a subsequent native invocation never reaches the previously
    registered callback (for the progress channel, a dispatched callback
    can only be the separately registered info callback); for a stream
    channel the detach also unlinks the native side (a
    `MSK_XX_linkfunctotaskstream` call with a NULL function pointer)
    before `set_Stream` returns.  For the progress channel, however, the
    detach performs no native call at all and leaves the trampoline
    installed with the engine. -/
theorem claim_C4 {κ : Type} :
    (∀ st : TaskCallbacks κ, (Task_set_Progress st none).1.progress_func = none) ∧
    (∀ (st : TaskCallbacks κ) (g : κ),
      g ∈ nativeProgressDispatch (Task_set_Progress st none).1 →
      st.infocallback_func = some g) ∧
    (∀ st : TaskCallbacks κ, (Task_set_Progress st none).2 = [] ∧
      (Task_set_Progress st none).1.native_progress_attached =
        st.native_progress_attached) ∧
    (∀ (st : TaskCallbacks κ) (m : EnumMember),
      (Task_set_Stream st (.enumv "streamtype" m) none).2 =
        [.MSK_linkfunctotaskstream m.value false] ∧
      ∀ st2, (Task_set_Stream st (.enumv "streamtype" m) none).1 = .ok st2 →
        nativeStreamDispatch st2 m.value.toNat = [] ∧
        st2.native_stream_attached.getD m.value.toNat false = false) := by
  refine ⟨fun st => rfl, ?_, fun st => ⟨rfl, rfl⟩, ?_⟩
  · intro st g hg
    unfold nativeProgressDispatch Task_set_Progress at hg
    by_cases hat : st.native_progress_attached
    · rw [if_pos hat] at hg
      cases hinfo : st.infocallback_func with
      | none => simp [hinfo] at hg
      | some f =>
        rw [hinfo] at hg
        simp only [Option.toList_some, Option.toList_none, List.append_nil,
          List.mem_singleton] at hg
        rw [hg]
    · rw [if_neg hat] at hg
      cases hg
  · intro st m
    refine ⟨rfl, ?_⟩
    intro st2 h2
    have hst2 : st2 = { st with
        stream_func := st.stream_func.set m.value.toNat none,
        native_stream_attached := st.native_stream_attached.set m.value.toNat false } := by
      simpa [Task_set_Stream] using h2.symm
    have hatt : st2.native_stream_attached.getD m.value.toNat false = false := by
      rw [hst2]
      exact getD_set_false st.native_stream_attached m.value.toNat
    refine ⟨?_, hatt⟩
    unfold nativeStreamDispatch
    rw [hatt]
    simp

/-- C4 witness: the amended detach behaviour evaluated at a concrete
    state: detaching stream channel `streamtype.log` performs the native
    unlink and leaves an empty dispatch; detaching progress clears the
    slot. -/
theorem claim_C4_witness :
    (Task_set_Stream (initTaskCallbacks Nat) (.enumv "streamtype" ⟨"log", 0⟩) none).2 =
      [.MSK_linkfunctotaskstream 0 false] ∧
    nativeStreamDispatch (initTaskCallbacks Nat) 0 = [] ∧
    (Task_set_Progress (initTaskCallbacks Nat) none).1.progress_func = none :=
  ⟨(claim_C4.2.2.2 (initTaskCallbacks Nat) ⟨"log", 0⟩).1,
   ((claim_C4.2.2.2 (initTaskCallbacks Nat) ⟨"log", 0⟩).2 (initTaskCallbacks Nat) rfl).1,
   claim_C4.1 (initTaskCallbacks Nat)⟩

/-- C8: an exception raised by a user callback never unwinds through the
    native frame: the progress trampoline catches it and returns the
    non-zero stop signal -1 to the engine, and a stream trampoline
    silently discards it and completes normally. -/
theorem claim_C8 :
    (∀ (caller : Int) (info : Option PyRet),
      progress_proxy caller info (some .raise) = -1) ∧
    (∀ (caller : Int) (prog : Option PyRet),
      progress_proxy caller (some .raise) prog = -1) ∧
    ((-1 : Int) ≠ 0) ∧
    (∀ (f : StreamCB) (msg : String), stream_proxy (some f) msg = .ok ()) := by
  refine ⟨?_, ?_, by decide, ?_⟩
  · intro caller info
    unfold progress_proxy
    cases h : enumNew callbackcodeE (.int caller) with
    | error e => rfl
    | ok m =>
      cases info with
      | none => rfl
      | some r => cases r <;> rfl
  · intro caller prog
    unfold progress_proxy
    cases h : enumNew callbackcodeE (.int caller) with
    | error e => rfl
    | ok m => rfl
  · intro f msg
    show (match f msg with
          | Except.ok _ => Except.ok ()
          | Except.error _ => Except.ok ()) = Except.ok ()
    cases f msg with
    | ok u => rfl
    | error e => rfl

/-- C10: when the progress (or info) callback runs without raising but
    returns a value that is not an int (such as None), the
    `isinstance(r,int)` coercion in `progress_proxy` replaces it with 0,
    the neutral continue status, so a callback returning nothing never
    requests termination. -/
theorem claim_C10 (caller : Int) (info prog : Option PyRet)
    (hc : dictFind callbackcodeE.valdict caller ≠ none)
    (hinfo : info ≠ some .raise) (hprog : prog ≠ some .raise)
    (hnon : prog = some .nonInt ∨ (prog = none ∧ info = some .nonInt)) :
    progress_proxy caller info prog = 0 := by
  unfold progress_proxy
  cases hfind : dictFind callbackcodeE.valdict caller with
  | none => exact absurd hfind hc
  | some m =>
    have hok : enumNew callbackcodeE (.int caller) = .ok m := by
      simp [enumNew, hfind]
    rw [hok]
    rcases hnon with rfl | ⟨rfl, rfl⟩
    · cases info with
      | none => rfl
      | some r =>
        cases r with
        | int n => rfl
        | nonInt => rfl
        | raise => exact absurd rfl hinfo
    · rfl

set_option maxRecDepth 10000 in
/-- C10 witness: a progress callback returning a non-int at callback
    code 0 (`callbackcode.begin_bi`) yields a 0 return to the engine. -/
theorem claim_C10_witness : progress_proxy 0 none (some .nonInt) = 0 :=
  claim_C10 0 none (some .nonInt) (by decide) (by decide) (by decide) (Or.inl rfl)
